import Mathlib

/-
Verification of the sc-console event/lead ingestion, experiment state-machine
and Stripe webhook reconciliation subsystem (workers/sc-api).

The definitions below are a shallow embedding of the TypeScript worker:
pure helpers become Lean functions, the D1 store becomes explicit state
(lists of typed rows), HTTP handlers become functions from request data and
store to (response, store).  JSON values are modelled by an inductive type,
JS machine numbers by Int/Nat, and the platform SHA-256 / HMAC primitives by
a concrete executable implementation of FIPS 180-4 / RFC 2104.
-/

namespace SCApi

/-! ## JSON values and serialization

Models the JavaScript JSON values flowing through request bodies and
the behaviour of JSON.stringify on them (numbers restricted to integers,
which is all the worker ever serializes). -/

inductive Json where
  | null : Json
  | bool (b : Bool) : Json
  | num (n : Int) : Json
  | str (s : String) : Json
  | arr (xs : List Json) : Json
  | obj (kvs : List (String × Json)) : Json
deriving Repr

/-- jsTruthy models JavaScript truthiness of a JSON value: null, false,
0 and the empty string are falsy; arrays and objects are always truthy. -/
def jsTruthy : Json → Bool
  | .null => false
  | .bool b => b
  | .num n => n != 0
  | .str s => s != ""
  | .arr _ => true
  | .obj _ => true

/-- escapeChar models JSON.stringify escaping of a single character inside a
string literal. -/
def escapeChar (c : Char) : String :=
  if c = '"' then "\\\""
  else if c = '\\' then "\\\\"
  else if c = '\n' then "\\n"
  else if c = '\r' then "\\r"
  else if c = '\t' then "\\t"
  else String.singleton c

/-- escapeString escapes every character of a string for JSON output. -/
def escapeString (s : String) : String :=
  String.join (s.toList.map escapeChar)

/-- quoteString renders a JSON string literal with surrounding quotes. -/
def quoteString (s : String) : String :=
  "\"" ++ escapeString s ++ "\""

mutual

/-- Json.stringify models JSON.stringify: object members appear in
insertion order, arrays in element order. -/
def Json.stringify : Json → String
  | .null => "null"
  | .bool true => "true"
  | .bool false => "false"
  | .num n => toString n
  | .str s => quoteString s
  | .arr xs => "[" ++ stringifyElems xs ++ "]"
  | .obj kvs => "\x7b" ++ stringifyMembers kvs ++ "\x7d"

/-- stringifyElems serializes array elements separated by commas. -/
def stringifyElems : List Json → String
  | [] => ""
  | [x] => Json.stringify x
  | x :: y :: xs => Json.stringify x ++ "," ++ stringifyElems (y :: xs)

/-- stringifyMembers serializes object members separated by commas. -/
def stringifyMembers : List (String × Json) → String
  | [] => ""
  | [kv] => quoteString kv.1 ++ ":" ++ Json.stringify kv.2
  | kv :: kv2 :: kvs => quoteString kv.1 ++ ":" ++ Json.stringify kv.2 ++ "," ++
      stringifyMembers (kv2 :: kvs)

end

/-! ## SHA-256 and HMAC-SHA256

Executable model of the crypto.subtle primitives the worker calls
(digest(SHA-256) in computeEventHash, sign(HMAC/SHA-256) in the Stripe
webhook verification), rendered as lowercase hex exactly as the worker
renders the digest bytes. -/

/-- M32 is the modulus for 32-bit words. -/
def M32 : Nat := 4294967296

/-- rotr is a 32-bit right rotation. -/
def rotr (n x : Nat) : Nat :=
  ((x >>> n) ||| (x <<< (32 - n))) % M32

/-- shaCh is the SHA-256 choice function. -/
def shaCh (x y z : Nat) : Nat :=
  (x &&& y) ^^^ ((x ^^^ 4294967295) &&& z)

/-- shaMaj is the SHA-256 majority function. -/
def shaMaj (x y z : Nat) : Nat :=
  (x &&& y) ^^^ (x &&& z) ^^^ (y &&& z)

/-- bigSigma0 is the SHA-256 Σ0 function. -/
def bigSigma0 (x : Nat) : Nat := rotr 2 x ^^^ rotr 13 x ^^^ rotr 22 x

/-- bigSigma1 is the SHA-256 Σ1 function. -/
def bigSigma1 (x : Nat) : Nat := rotr 6 x ^^^ rotr 11 x ^^^ rotr 25 x

/-- smallSigma0 is the SHA-256 σ0 function. -/
def smallSigma0 (x : Nat) : Nat := rotr 7 x ^^^ rotr 18 x ^^^ (x >>> 3)

/-- smallSigma1 is the SHA-256 σ1 function. -/
def smallSigma1 (x : Nat) : Nat := rotr 17 x ^^^ rotr 19 x ^^^ (x >>> 10)

/-- sha256K is the list of the 64 SHA-256 round constants. -/
def sha256K : List Nat :=
  [1116352408, 1899447441, 3049323471, 3921009573, 961987163,
   1508970993, 2453635748, 2870763221, 3624381080, 310598401,
   607225278, 1426881987, 1925078388, 2162078206, 2614888103,
   3248222580, 3835390401, 4022224774, 264347078, 604807628,
   770255983, 1249150122, 1555081692, 1996064986, 2554220882,
   2821834349, 2952996808, 3210313671, 3336571891, 3584528711,
   113926993, 338241895, 666307205, 773529912, 1294757372,
   1396182291, 1695183700, 1986661051, 2177026350, 2456956037,
   2730485921, 2820302411, 3259730800, 3345764771, 3516065817,
   3600352804, 4094571909, 275423344, 430227734, 506948616,
   659060556, 883997877, 958139571, 1322822218, 1537002063,
   1747873779, 1955562222, 2024104815, 2227730452, 2361852424,
   2428436474, 2756734187, 3204031479, 3329325298]

/-- Hash8 is the eight-word SHA-256 working state. -/
structure Hash8 where
  a : Nat
  b : Nat
  c : Nat
  d : Nat
  e : Nat
  f : Nat
  g : Nat
  h : Nat
deriving Repr, DecidableEq

/-- sha256Init is the SHA-256 initial hash value. -/
def sha256Init : Hash8 :=
  ⟨1779033703, 3144134277, 1013904242,
   2773480762, 1359893119, 2600822924,
   528734635, 1541459225⟩

/-- buildW expands a 16-word message block into the 64-word schedule. -/
def buildW (block : List Nat) : List Nat :=
  let w0 := block.toArray
  let w := (List.range 48).foldl (fun (w : Array Nat) i =>
      let t := (smallSigma1 (w.getD (i + 14) 0) + w.getD (i + 9) 0 +
        smallSigma0 (w.getD (i + 1) 0) + w.getD i 0) % M32
      w.push t) w0
  w.toList

/-- sha256Round performs one round of the SHA-256 compression function;
kw is the sum input (round constant paired with the schedule word). -/
def sha256Round (s : Hash8) (kw : Nat × Nat) : Hash8 :=
  let t1 := (s.h + bigSigma1 s.e + shaCh s.e s.f s.g + kw.1 + kw.2) % M32
  let t2 := (bigSigma0 s.a + shaMaj s.a s.b s.c) % M32
  ⟨(t1 + t2) % M32, s.a, s.b, s.c, (s.d + t1) % M32, s.e, s.f, s.g⟩

/-- compressBlock runs the 64 SHA-256 rounds on one block and adds the result
into the chaining state. -/
def compressBlock (st : Hash8) (block : List Nat) : Hash8 :=
  let f := (sha256K.zip (buildW block)).foldl sha256Round st
  ⟨(st.a + f.a) % M32, (st.b + f.b) % M32, (st.c + f.c) % M32, (st.d + f.d) % M32,
   (st.e + f.e) % M32, (st.f + f.f) % M32, (st.g + f.g) % M32, (st.h + f.h) % M32⟩

/-- bytesBE renders a value as n big-endian bytes. -/
def bytesBE (n v : Nat) : List Nat :=
  (List.range n).map (fun i => (v >>> (8 * (n - 1 - i))) % 256)

/-- padMessage appends the SHA-256 padding (0x80, zeros, 64-bit bit length)
to a byte string. -/
def padMessage (msg : List Nat) : List Nat :=
  let zeros := (119 - msg.length % 64) % 64
  msg ++ [0x80] ++ List.replicate zeros 0 ++ bytesBE 8 (msg.length * 8)

/-- chunks64Aux splits a byte string into 64-byte blocks; the fuel bounds the
number of blocks and is always at least the list length. -/
def chunks64Aux : Nat → List Nat → List (List Nat)
  | 0, _ => []
  | fuel + 1, l => if l = [] then [] else l.take 64 :: chunks64Aux fuel (l.drop 64)

/-- chunks64 splits a byte string into 64-byte blocks. -/
def chunks64 (l : List Nat) : List (List Nat) :=
  chunks64Aux l.length l

/-- toWords32 packs bytes into big-endian 32-bit words. -/
def toWords32 : List Nat → List Nat
  | b0 :: b1 :: b2 :: b3 :: rest =>
      (((b0 * 256 + b1) * 256 + b2) * 256 + b3) :: toWords32 rest
  | _ => []

/-- sha256Bytes computes the 32-byte SHA-256 digest of a byte string. -/
def sha256Bytes (msg : List Nat) : List Nat :=
  let final := ((chunks64 (padMessage msg)).map toWords32).foldl compressBlock sha256Init
  bytesBE 4 final.a ++ bytesBE 4 final.b ++ bytesBE 4 final.c ++ bytesBE 4 final.d ++
  bytesBE 4 final.e ++ bytesBE 4 final.f ++ bytesBE 4 final.g ++ bytesBE 4 final.h

/-- hexDigitChar maps a value below 16 to its lowercase hex character. -/
def hexDigitChar (n : Nat) : Char :=
  if n < 10 then Char.ofNat (48 + n) else Char.ofNat (87 + n)

/-- byteToHex renders one byte as two lowercase hex characters, as the
worker does with toString(16).padStart(2, '0'). -/
def byteToHex (b : Nat) : List Char :=
  [hexDigitChar (b / 16 % 16), hexDigitChar (b % 16)]

/-- bytesToHex renders a byte string as lowercase hex. -/
def bytesToHex (bs : List Nat) : String :=
  String.mk (bs.flatMap byteToHex)

/-- strBytes is the UTF-8 byte string of a string, matching
TextEncoder().encode. -/
def strBytes (s : String) : List Nat :=
  (s.data.flatMap String.utf8EncodeChar).map UInt8.toNat

/-- sha256hex is the lowercase-hex SHA-256 digest of a string, the model of
crypto.subtle.digest('SHA-256', encoder.encode(s)) followed by the worker's
hex rendering. -/
def sha256hex (s : String) : String :=
  bytesToHex (sha256Bytes (strBytes s))

/-- hmacSha256Bytes is HMAC-SHA256 over byte strings (RFC 2104), the model of
crypto.subtle.sign('HMAC', key, msg) with a SHA-256 hash. -/
def hmacSha256Bytes (key msg : List Nat) : List Nat :=
  let k0 := if key.length > 64 then sha256Bytes key else key
  let k := k0 ++ List.replicate (64 - k0.length) 0
  let ipad := k.map (fun b => b ^^^ 0x36)
  let opad := k.map (fun b => b ^^^ 0x5c)
  sha256Bytes (opad ++ sha256Bytes (ipad ++ msg))

/-- hmacSha256Hex is the lowercase-hex HMAC-SHA256 of a string message under a
string secret, as the webhook handler computes expectedSig. -/
def hmacSha256Hex (secret msg : String) : String :=
  bytesToHex (hmacSha256Bytes (strBytes secret) (strBytes msg))

/-! ## Event hash canonicalization (computeEventHash)

Faithful to computeEventHash in workers/sc-api: the canonical record is
built with `x || null` coercions, the event_data value is key-sorted when
it is of typeof 'object' (which includes arrays, whose keys are their
stringified indices), and the canonical JSON is hashed with SHA-256. -/

/-- strOrNull models the JavaScript expression `x || null` on an optional
string: undefined, null and the empty string all become null. -/
def strOrNull : Option String → Option String
  | none => none
  | some v => if v = "" then none else some v

/-- dataOrNull models `event_data || null` on an optional JSON value:
falsy values become null. -/
def dataOrNull : Option Json → Option Json
  | none => none
  | some j => if jsTruthy j then some j else none

/-- lookupJson models JavaScript property access data[key] on an object's
entry list (first binding wins; a missing key cannot occur on the keys the
caller supplies). -/
def lookupJson (k : String) (kvs : List (String × Json)) : Json :=
  match kvs.find? (fun p => p.1 == k) with
  | some p => p.2
  | none => Json.null

/-- charsLe is lexicographic comparison of character lists by code point, the
order Array.prototype.sort() applies to string keys. -/
def charsLe : List Char → List Char → Bool
  | [], _ => true
  | _ :: _, [] => false
  | a :: as, b :: bs =>
    if a.toNat < b.toNat then true
    else if b.toNat < a.toNat then false
    else charsLe as bs

/-- strLe is the ascending string order used by the key sort. -/
def strLe (a b : String) : Prop := charsLe a.data b.data = true

instance : DecidableRel strLe := fun a b => by
  unfold strLe; infer_instance

/-- sortEntries models the worker's loop `for key of Object.keys(data).sort()
sortedData[key] = data[key]`: the keys are sorted ascending and each is paired
with its looked-up value. -/
def sortEntries (kvs : List (String × Json)) : List (String × Json) :=
  (List.insertionSort strLe (kvs.map Prod.fst)).map (fun k => (k, lookupJson k kvs))

/-- jsObjectEntries gives the Object.keys view of a typeof-'object' JSON
value: an object's own entries, or an array's elements keyed by their
stringified indices. -/
def jsObjectEntries : Json → List (String × Json)
  | .obj kvs => kvs
  | .arr xs => (xs.enum).map (fun p => (toString p.1, p.2))
  | _ => []

/-- canonicalizeEventData applies the worker's key-sorting step to a truthy
event_data value: values of typeof 'object' (objects and arrays) are replaced
by a key-sorted plain object, all other values pass through unchanged. -/
def canonicalizeEventData : Json → Json
  | .obj kvs => .obj (sortEntries (jsObjectEntries (.obj kvs)))
  | .arr xs => .obj (sortEntries (jsObjectEntries (.arr xs)))
  | j => j

/-- optStrJson renders an optional string as a JSON value (null when absent). -/
def optStrJson : Option String → Json
  | none => Json.null
  | some s => Json.str s

/-- canonicalEventJson builds the canonical record of computeEventHash
(experiment_id, event_type, session_id, event_data in that insertion order)
and serializes it with JSON.stringify. -/
def canonicalEventJson (experiment_id : Option String) (event_type : String)
    (session_id : Option String) (event_data : Option Json) : String :=
  let ed := match dataOrNull event_data with
    | some j => canonicalizeEventData j
    | none => Json.null
  Json.stringify (Json.obj
    [("experiment_id", optStrJson (strOrNull experiment_id)),
     ("event_type", Json.str event_type),
     ("session_id", optStrJson (strOrNull session_id)),
     ("event_data", ed)])

/-- computeEventHash is the worker's deduplication hash: SHA-256 of the
canonical JSON, rendered as lowercase hex. -/
def computeEventHash (experiment_id : Option String) (event_type : String)
    (session_id : Option String) (event_data : Option Json) : String :=
  sha256hex (canonicalEventJson experiment_id event_type session_id event_data)

/-! ## Store data model

Typed rows for the D1 tables the verified handlers touch, with the
constraints of migrations/seed.sql that those handlers can hit. -/

/-- Experiment is a row of the experiments table. -/
structure Experiment where
  id : String
  name : String
  slug : String
  status : String
  archetype : String
  problem_statement : Option String := none
  target_audience : Option String := none
  value_proposition : Option String := none
  market_size_estimate : Option String := none
  min_signups : Option Int := none
  max_spend_cents : Option Int := none
  max_duration_days : Option Int := none
  kill_criteria : Option String := none
  copy_pack : Option String := none
  creative_brief : Option String := none
  stripe_price_id : Option String := none
  stripe_product_id : Option String := none
  price_cents : Option Int := none
  created_at : Nat := 0
  updated_at : Nat := 0
  launched_at : Option Nat := none
  decided_at : Option Nat := none
deriving Repr, DecidableEq

/-- Lead is a row of the leads table. -/
structure Lead where
  id : Nat
  experiment_id : String
  email : String
  name : Option String := none
  company : Option String := none
  phone : Option String := none
  custom_fields : Option String := none
  status : String := "new"
  utm_source : Option String := none
  utm_medium : Option String := none
  utm_campaign : Option String := none
  utm_term : Option String := none
  utm_content : Option String := none
  referrer : Option String := none
  ip_country : Option String := none
  user_agent : Option String := none
  stripe_payment_id : Option String := none
  payment_amount_cents : Option Int := none
  payment_status : Option String := none
  created_at : Nat := 0
deriving Repr, DecidableEq

/-- Payment is a row of the payments table; experiment_id, amount_cents and
currency are NOT NULL columns (amount_cents additionally CHECKed positive),
so they are plain values here and the insert models the constraint check. -/
structure Payment where
  id : Nat
  experiment_id : String
  lead_id : Option Nat := none
  stripe_payment_intent_id : String
  stripe_customer_id : Option String := none
  stripe_charge_id : Option String := none
  amount_cents : Int
  currency : String
  status : String
  receipt_url : Option String := none
  created_at : Nat := 0
deriving Repr, DecidableEq

/-- EventRow is a row of the event_log table. -/
structure EventRow where
  id : Nat
  experiment_id : Option String := none
  event_type : String
  event_data : Option String := none
  event_hash : Option String := none
  session_id : Option String := none
  visitor_id : Option String := none
  referrer : Option String := none
  user_agent : Option String := none
  ip_country : Option String := none
  created_at : Nat := 0
deriving Repr, DecidableEq

/-- Store is the mutable database state shared by the handlers; the nextXId
counters model the AUTOINCREMENT rowids (SQLite starts them at 1). -/
structure Store where
  experiments : List Experiment := []
  leads : List Lead := []
  payments : List Payment := []
  events : List EventRow := []
  nextLeadId : Nat := 1
  nextPaymentId : Nat := 1
  nextEventId : Nat := 1
deriving Repr, DecidableEq

/-- RequestContext carries the caller-supplied context headers the handlers
read (CF-IPCountry, User-Agent, Referer), already `|| null` coerced. -/
structure RequestContext where
  ip_country : Option String := none
  user_agent : Option String := none
  referrer : Option String := none
deriving Repr, DecidableEq

/-! ## Experiment state machine (PATCH /experiments/:id) -/

/-- VALID_STATUS_TRANSITIONS is the worker's transition table; lookup of a
string that is not one of the seven statuses is undefined, modelled as none. -/
def VALID_STATUS_TRANSITIONS : String → Option (List String)
  | "draft" => some ["preflight", "archive"]
  | "preflight" => some ["build", "draft", "archive"]
  | "build" => some ["launch", "preflight", "archive"]
  | "launch" => some ["run", "archive"]
  | "run" => some ["decide", "archive"]
  | "decide" => some ["archive"]
  | "archive" => some []
  | _ => none

/-- isValidStatusTransition mirrors the worker's check: same status is always
allowed, otherwise the requested status must appear in the table row (an
unknown current status yields the empty row via `|| []`). -/
def isValidStatusTransition (currentStatus newStatus : String) : Bool :=
  currentStatus == newStatus ||
    ((VALID_STATUS_TRANSITIONS currentStatus).getD []).contains newStatus

/-- ValidStatus is the experiments.status CHECK constraint of seed.sql. -/
def ValidStatus (s : String) : Prop :=
  s ∈ ["draft", "preflight", "build", "launch", "run", "decide", "archive"]

instance (s : String) : Decidable (ValidStatus s) := by
  unfold ValidStatus; infer_instance

/-- TransitionDetails is the details payload of an InvalidStatusTransition
error; allowed_transitions is the raw table lookup (undefined for an unknown
current status, modelled as none). -/
structure TransitionDetails where
  current_status : String
  requested_status : String
  allowed_transitions : Option (List String)
deriving Repr, DecidableEq

/-- UpdateResult is the outcome of the PATCH /experiments/:id handler;
internalError is the catch-all 500 taken when the UPDATE statement throws
(a violated experiments-table constraint). -/
inductive UpdateResult where
  | ok (experiment : Experiment)
  | experimentNotFound
  | invalidStatusTransition (details : TransitionDetails)
  | invalidRequest
  | internalError
deriving Repr, DecidableEq

/-- UpdateResult.statusCode is the HTTP status the handler responds with. -/
def UpdateResult.statusCode : UpdateResult → Nat
  | .ok _ => 200
  | .experimentNotFound => 404
  | .invalidStatusTransition _ => 400
  | .invalidRequest => 400
  | .internalError => 500

/-- ExperimentPatch is the request body of PATCH /experiments/:id restricted
to the fields the handler reads; an outer none means the key was absent
(undefined), and for nullable columns the inner Option carries JSON null. -/
structure ExperimentPatch where
  status : Option String := none
  name : Option String := none
  slug : Option String := none
  problem_statement : Option (Option String) := none
  target_audience : Option (Option String) := none
  value_proposition : Option (Option String) := none
  market_size_estimate : Option (Option String) := none
  min_signups : Option (Option Int) := none
  max_spend_cents : Option (Option Int) := none
  max_duration_days : Option (Option Int) := none
  kill_criteria : Option (Option String) := none
  copy_pack : Option (Option String) := none
  creative_brief : Option (Option String) := none
  stripe_price_id : Option (Option String) := none
  stripe_product_id : Option (Option String) := none
  price_cents : Option (Option Int) := none
deriving Repr, DecidableEq

/-- applyOtherFields applies the allow-listed non-status fields of the patch
to an experiment: each allow-listed column takes the patched value when the
key is present in the body and keeps its stored value otherwise (the net
effect of the handler's SET-clause loop). -/
def applyOtherFields (p : ExperimentPatch) (e : Experiment) : Experiment :=
  { e with
    name := p.name.getD e.name,
    slug := p.slug.getD e.slug,
    problem_statement := p.problem_statement.getD e.problem_statement,
    target_audience := p.target_audience.getD e.target_audience,
    value_proposition := p.value_proposition.getD e.value_proposition,
    market_size_estimate := p.market_size_estimate.getD e.market_size_estimate,
    min_signups := p.min_signups.getD e.min_signups,
    max_spend_cents := p.max_spend_cents.getD e.max_spend_cents,
    max_duration_days := p.max_duration_days.getD e.max_duration_days,
    kill_criteria := p.kill_criteria.getD e.kill_criteria,
    copy_pack := p.copy_pack.getD e.copy_pack,
    creative_brief := p.creative_brief.getD e.creative_brief,
    stripe_price_id := p.stripe_price_id.getD e.stripe_price_id,
    stripe_product_id := p.stripe_product_id.getD e.stripe_product_id,
    price_cents := p.price_cents.getD e.price_cents }

/-- hasOtherFields is true when at least one allow-listed non-status field is
present in the patch body. -/
def hasOtherFields (p : ExperimentPatch) : Bool :=
  p.name.isSome || p.slug.isSome || p.problem_statement.isSome ||
  p.target_audience.isSome || p.value_proposition.isSome ||
  p.market_size_estimate.isSome || p.min_signups.isSome ||
  p.max_spend_cents.isSome || p.max_duration_days.isSome ||
  p.kill_criteria.isSome || p.copy_pack.isSome || p.creative_brief.isSome ||
  p.stripe_price_id.isSome || p.stripe_product_id.isSome || p.price_cents.isSome

/-- jsFalsyTime models the JavaScript test `!x` on a nullable epoch-ms
column value: null and 0 are falsy. -/
def jsFalsyTime : Option Nat → Bool
  | none => true
  | some t => t == 0

/-- applyStatusChange is the status part of the PATCH handler's SET list: the
status column takes the requested value, and launched_at/decided_at are
stamped with the current time on entry into launch/decide when the current
value is falsy. -/
def applyStatusChange (now : Nat) (cur : Experiment) (newStatus : String) :
    Experiment :=
  let e1 := { cur with status := newStatus }
  let e2 := if newStatus == "launch" && jsFalsyTime cur.launched_at then
      { e1 with launched_at := some now } else e1
  if newStatus == "decide" && jsFalsyTime cur.decided_at then
    { e2 with decided_at := some now } else e2

/-- experimentChecksOk is the conjunction of the experiments-table CHECK
constraints of seed.sql, which SQLite re-evaluates on the updated row: status
and archetype within their enums, max_spend_cents and price_cents null or
nonnegative, max_duration_days null or positive. -/
def experimentChecksOk (e : Experiment) : Bool :=
  ["draft", "preflight", "build", "launch", "run", "decide",
   "archive"].contains e.status &&
  ["waitlist", "priced_waitlist", "presale", "service_pilot", "content_magnet",
   "concierge", "interview"].contains e.archetype &&
  (match e.max_spend_cents with | none => true | some v => decide (0 ≤ v)) &&
  (match e.max_duration_days with | none => true | some v => decide (0 < v)) &&
  (match e.price_cents with | none => true | some v => decide (0 ≤ v))

/-- slugUniqueOk is the experiments.slug UNIQUE constraint on the updated
row: no other experiment row carries the same slug. -/
def slugUniqueOk (exps : List Experiment) (id slug : String) : Bool :=
  exps.all (fun x => x.id == id || x.slug != slug)

/-- updateExperiment is the PATCH /experiments/:id handler: fetch the current
row, validate a requested status transition, stamp launched_at/decided_at,
apply the allow-listed fields, and run one UPDATE.  The handler binds the
patched values unvalidated, so the UPDATE re-evaluates the experiments-table
CHECK constraints and the slug UNIQUE constraint; a violation throws and the
catch-all returns InternalError (500) with no write. -/
def updateExperiment (now : Nat) (exps : List Experiment) (id : String)
    (body : ExperimentPatch) : UpdateResult × List Experiment :=
  match exps.find? (fun e => e.id == id) with
  | none => (.experimentNotFound, exps)
  | some cur =>
    match body.status with
    | some newStatus =>
      if !isValidStatusTransition cur.status newStatus then
        (.invalidStatusTransition
          ⟨cur.status, newStatus, VALID_STATUS_TRANSITIONS cur.status⟩, exps)
      else
        let e4 := applyOtherFields body (applyStatusChange now cur newStatus)
        if experimentChecksOk e4 && slugUniqueOk exps id e4.slug then
          (.ok e4, exps.map (fun x => if x.id == id then e4 else x))
        else
          (.internalError, exps)
    | none =>
      if hasOtherFields body then
        let e4 := applyOtherFields body cur
        if experimentChecksOk e4 && slugUniqueOk exps id e4.slug then
          (.ok e4, exps.map (fun x => if x.id == id then e4 else x))
        else
          (.internalError, exps)
      else
        (.invalidRequest, exps)

/-! ## Public slug lookup (GET /experiments/by-slug/:slug) -/

/-- sanitizedExperiment is the public projection of an experiment row: the
seven base fields, plus price_cents when it is not null/undefined and
stripe_price_id when it is truthy. -/
def sanitizedExperiment (e : Experiment) : List (String × Json) :=
  let base := [("id", Json.str e.id), ("name", Json.str e.name),
    ("slug", Json.str e.slug), ("status", Json.str e.status),
    ("archetype", Json.str e.archetype), ("copy_pack", optStrJson e.copy_pack),
    ("created_at", Json.num (e.created_at : Int))]
  let base := match e.price_cents with
    | some pc => base ++ [("price_cents", Json.num pc)]
    | none => base
  match e.stripe_price_id with
  | some sp => if sp ≠ "" then base ++ [("stripe_price_id", Json.str sp)] else base
  | none => base

/-- getExperimentBySlug is the GET /experiments/by-slug/:slug handler: it
finds an experiment by slug with status launch or run and returns its
sanitized projection, or none (a 404 EXPERIMENT_NOT_FOUND). -/
def getExperimentBySlug (exps : List Experiment) (slug : String) :
    Option (List (String × Json)) :=
  (exps.find? (fun e => e.slug == slug &&
      (e.status == "launch" || e.status == "run"))).map sanitizedExperiment

/-! ## Lead intake (POST /leads) -/

/-- LeadInput is the POST /leads request body restricted to the fields the
handler reads; absent string fields are the empty string for the two required
fields (matching the falsy check) and none for the optional ones. -/
structure LeadInput where
  experiment_id : String := ""
  email : String := ""
  name : Option String := none
  company : Option String := none
  phone : Option String := none
  custom_fields : Option Json := none
  utm_source : Option String := none
  utm_medium : Option String := none
  utm_campaign : Option String := none
  utm_term : Option String := none
  utm_content : Option String := none
  hp_field : Option String := none
deriving Repr

/-- LeadResult is the outcome of the POST /leads handler. -/
inductive LeadResult where
  | created (lead_id : Nat) (experiment_id : String) (slug : String)
  | invalidRequest
  | experimentNotFound
  | duplicateLead
deriving Repr, DecidableEq

/-- LeadResult.statusCode is the HTTP status the handler responds with. -/
def LeadResult.statusCode : LeadResult → Nat
  | .created _ _ _ => 201
  | .invalidRequest => 400
  | .experimentNotFound => 404
  | .duplicateLead => 409

/-- jsToLower models String.prototype.toLowerCase character by character. -/
def jsToLower (s : String) : String :=
  String.mk (s.data.map Char.toLower)

/-- jsTrimAux drops leading whitespace characters. -/
def jsTrimAux : List Char → List Char
  | [] => []
  | c :: cs => if c.isWhitespace then jsTrimAux cs else c :: cs

/-- jsTrim models String.prototype.trim: whitespace is stripped from both
ends. -/
def jsTrim (s : String) : String :=
  String.mk (jsTrimAux ((jsTrimAux s.data.reverse).reverse))

/-- normalizeEmail is the handler's email normalization:
email.toLowerCase().trim(). -/
def normalizeEmail (email : String) : String :=
  jsTrim (jsToLower email)

/-- honeypotTriggered models `hp_field && hp_field.trim() !== ''`. -/
def honeypotTriggered (hp : Option String) : Bool :=
  match hp with
  | none => false
  | some h => h != "" && jsTrim h != ""

/-- submitLead is the POST /leads handler: validate required fields, gate on
an experiment in launch/run, short-circuit the honeypot with a fake success,
normalize the email, and insert, translating the UNIQUE(experiment_id, email)
violation into DuplicateLead.  fakeId is the Math.random draw used for the
honeypot response's fake lead id. -/
def submitLead (now fakeId : Nat) (ctx : RequestContext) (input : LeadInput)
    (s : Store) : LeadResult × Store :=
  if input.experiment_id = "" || input.email = "" then
    (.invalidRequest, s)
  else
    match s.experiments.find? (fun e => e.id == input.experiment_id &&
        (e.status == "launch" || e.status == "run")) with
    | none => (.experimentNotFound, s)
    | some experiment =>
      if honeypotTriggered input.hp_field then
        (.created fakeId input.experiment_id experiment.slug, s)
      else
        if s.leads.any (fun l => l.experiment_id == input.experiment_id &&
            l.email == normalizeEmail input.email) then
          (.duplicateLead, s)
        else
          let lead : Lead :=
          { id := s.nextLeadId,
            experiment_id := input.experiment_id,
            email := normalizeEmail input.email,
            name := strOrNull input.name, company := strOrNull input.company,
            phone := strOrNull input.phone,
            custom_fields := (dataOrNull input.custom_fields).map Json.stringify,
            utm_source := strOrNull input.utm_source,
            utm_medium := strOrNull input.utm_medium,
            utm_campaign := strOrNull input.utm_campaign,
            utm_term := strOrNull input.utm_term,
            utm_content := strOrNull input.utm_content,
            referrer := ctx.referrer, ip_country := ctx.ip_country,
            user_agent := ctx.user_agent, created_at := now }
          (.created s.nextLeadId input.experiment_id experiment.slug,
           { s with leads := s.leads ++ [lead], nextLeadId := s.nextLeadId + 1 })

/-! ## Event deduplication (POST /events) -/

/-- EventInput is the POST /events request body restricted to the fields the
handler reads; an absent event_type is the empty string (the falsy check
rejects both). -/
structure EventInput where
  experiment_id : Option String := none
  event_type : String := ""
  event_data : Option Json := none
  session_id : Option String := none
  visitor_id : Option String := none
deriving Repr

/-- EventResult is the outcome of the POST /events handler. -/
inductive EventResult where
  | ok (event_id : Nat) (deduplicated : Bool)
  | invalidRequest
deriving Repr, DecidableEq

/-- EventResult.statusCode is the HTTP status the handler responds with. -/
def EventResult.statusCode : EventResult → Nat
  | .ok _ _ => 201
  | .invalidRequest => 400

/-- inDedupWindow decides `created_at > now - 300000`, computed over Int as
JavaScript does. -/
def inDedupWindow (now created_at : Nat) : Bool :=
  (now : Int) - 300000 < (created_at : Int)

/-- submitEvent is the POST /events handler: require a truthy event_type,
compute the dedup hash, return the first event row with the same hash created
in the last five minutes if one exists, otherwise insert a new row. -/
def submitEvent (now : Nat) (ctx : RequestContext) (input : EventInput)
    (s : Store) : EventResult × Store :=
  if input.event_type = "" then
    (.invalidRequest, s)
  else
    let eventHash := computeEventHash input.experiment_id input.event_type
      input.session_id input.event_data
    match s.events.find? (fun r => r.event_hash == some eventHash &&
        inDedupWindow now r.created_at) with
    | some existing => (.ok existing.id true, s)
    | none =>
      let row : EventRow :=
      { id := s.nextEventId,
        experiment_id := strOrNull input.experiment_id,
        event_type := input.event_type,
        event_data := (dataOrNull input.event_data).map Json.stringify,
        event_hash := some eventHash,
        session_id := strOrNull input.session_id,
        visitor_id := strOrNull input.visitor_id,
        referrer := ctx.referrer, user_agent := ctx.user_agent,
        ip_country := ctx.ip_country, created_at := now }
      (.ok s.nextEventId false,
       { s with events := s.events ++ [row], nextEventId := s.nextEventId + 1 })

/-! ## Stripe webhook (POST /payments/webhook) -/

/-- StripeObject is the event.data.object payload, restricted to the
properties the handler dereferences (a payment intent, a charge or a dispute,
depending on the event type; absent properties are none). -/
structure StripeObject where
  id : String := ""
  amount : Option Int := none
  currency : Option String := none
  customer : Option String := none
  latest_charge : Option String := none
  receipt_url : Option String := none
  metadata_lead_id : Option Nat := none
  metadata_experiment_id : Option String := none
  receipt_email : Option String := none
  payment_intent : Option String := none
deriving Repr, DecidableEq

/-- StripeEvent is the parsed webhook body: its type string and data.object. -/
structure StripeEvent where
  type : String
  object : StripeObject := {}
deriving Repr, DecidableEq

/-- WebhookResult is the outcome of the POST /payments/webhook handler. -/
inductive WebhookResult where
  | received
  | invalidRequest
  | internalError
deriving Repr, DecidableEq

/-- WebhookResult.statusCode is the HTTP status the handler responds with. -/
def WebhookResult.statusCode : WebhookResult → Nat
  | .received => 200
  | .invalidRequest => 400
  | .internalError => 500

/-- natTruthy models the JavaScript test `x` on a nullable numeric id:
null/undefined and 0 are falsy. -/
def natTruthy : Option Nat → Bool
  | none => false
  | some n => n != 0

/-- strTruthy models the JavaScript test `x` on a nullable string:
null/undefined and the empty string are falsy. -/
def strTruthy : Option String → Bool
  | none => false
  | some v => v != ""

/-- findLatestLeadByEmail models
SELECT id, experiment_id FROM leads WHERE email = ? ORDER BY created_at DESC
LIMIT 1: the matching lead with the greatest created_at. -/
def findLatestLeadByEmail (leads : List Lead) (email : String) : Option Lead :=
  leads.foldl (fun acc l =>
    if l.email == email then
      match acc with
      | none => some l
      | some best => if l.created_at > best.created_at then some l else some best
    else acc) none

/-- resolveLeadExperiment is the handler's lead resolution: explicit
metadata.lead_id wins; with no truthy metadata lead id and a truthy receipt
email, the most recently created lead with that normalized email is used, its
experiment filling in a missing metadata.experiment_id. -/
def resolveLeadExperiment (o : StripeObject) (s : Store) :
    Option Nat × Option String :=
  if !natTruthy o.metadata_lead_id && strTruthy o.receipt_email then
    match findLatestLeadByEmail s.leads
        (normalizeEmail (o.receipt_email.getD "")) with
    | some l => (some l.id,
        if strTruthy o.metadata_experiment_id then o.metadata_experiment_id
        else some l.experiment_id)
    | none => (o.metadata_lead_id, o.metadata_experiment_id)
  else (o.metadata_lead_id, o.metadata_experiment_id)

/-- handleSucceeded is the payment_intent.succeeded branch: idempotency check
by stripe_payment_intent_id, lead resolution, payment insert, and lead
payment-status propagation.  The insert enforces the payments-table
constraints of seed.sql that its bindings can violate (experiment_id NOT
NULL, amount_cents NOT NULL and CHECKed positive, currency NOT NULL); a
violation throws and surfaces as InternalError with no write. -/
def handleSucceeded (now : Nat) (o : StripeObject) (s : Store) :
    WebhookResult × Store :=
  if (s.payments.find? (fun p => p.stripe_payment_intent_id == o.id)).isSome then
    (.received, s)
  else
    let resolved := resolveLeadExperiment o s
    let leadId := resolved.1
    let experimentId := resolved.2
    match strOrNull experimentId, o.amount, o.currency with
    | some eid, some amt, some cur =>
      if amt > 0 then
        let payment : Payment :=
        { id := s.nextPaymentId, experiment_id := eid,
          lead_id := if natTruthy leadId then leadId else none,
          stripe_payment_intent_id := o.id,
          stripe_customer_id := strOrNull o.customer,
          stripe_charge_id := strOrNull o.latest_charge,
          amount_cents := amt, currency := cur, status := "succeeded",
          receipt_url := strOrNull o.receipt_url, created_at := now }
        let s1 := { s with payments := s.payments ++ [payment],
                           nextPaymentId := s.nextPaymentId + 1 }
        let s2 := if natTruthy leadId then
            { s1 with leads := s1.leads.map (fun l =>
                if some l.id == leadId then
                  { l with payment_status := some "succeeded",
                           stripe_payment_id := some o.id,
                           payment_amount_cents := some amt }
                else l) }
          else s1
        (.received, s2)
      else (.internalError, s)
    | _, _, _ => (.internalError, s)

/-- handleFailed is the payment_intent.payment_failed branch: it only appends
an audit row to event_log. -/
def handleFailed (now : Nat) (o : StripeObject) (s : Store) :
    WebhookResult × Store :=
  let row : EventRow :=
  { id := s.nextEventId, event_type := "payment_failed",
    event_data := some (Json.stringify
      (Json.obj [("payment_intent_id", Json.str o.id)])),
    created_at := now }
  (.received, { s with events := s.events ++ [row], nextEventId := s.nextEventId + 1 })

/-- handleRefunded is the charge.refunded branch: set the matching payment's
status to refunded and propagate to leads referencing the intent id (an
absent charge.payment_intent binds NULL, which matches no row). -/
def handleRefunded (o : StripeObject) (s : Store) : WebhookResult × Store :=
  match o.payment_intent with
  | none => (.received, s)
  | some pid =>
    (.received,
     { s with
       payments := s.payments.map (fun p =>
         if p.stripe_payment_intent_id == pid then { p with status := "refunded" }
         else p),
       leads := s.leads.map (fun l =>
         if l.stripe_payment_id == some pid then
           { l with payment_status := some "refunded" } else l) })

/-- handleDispute is the charge.dispute.created branch: set the matching
payment's status to disputed and append an alert row to event_log
(JSON.stringify omits an undefined payment_intent_id member). -/
def handleDispute (now : Nat) (o : StripeObject) (s : Store) :
    WebhookResult × Store :=
  let payments := match o.payment_intent with
    | none => s.payments
    | some pid => s.payments.map (fun p =>
        if p.stripe_payment_intent_id == pid then { p with status := "disputed" }
        else p)
  let entries := (match o.payment_intent with
    | some pid => [("payment_intent_id", Json.str pid)]
    | none => []) ++ [("dispute_id", Json.str o.id)]
  let row : EventRow :=
  { id := s.nextEventId, event_type := "charge_disputed",
    event_data := some (Json.stringify (Json.obj entries)), created_at := now }
  (.received, { s with payments := payments, events := s.events ++ [row],
                       nextEventId := s.nextEventId + 1 })

/-- webhookDispatch routes a parsed Stripe event by its type string; unknown
event types are acknowledged without action. -/
def webhookDispatch (now : Nat) (ev : StripeEvent) (s : Store) :
    WebhookResult × Store :=
  if ev.type == "payment_intent.succeeded" then handleSucceeded now ev.object s
  else if ev.type == "payment_intent.payment_failed" then handleFailed now ev.object s
  else if ev.type == "charge.refunded" then handleRefunded ev.object s
  else if ev.type == "charge.dispute.created" then handleDispute now ev.object s
  else (.received, s)

/-- jsSplitCharAux accumulates the current chunk while scanning for the
separator. -/
def jsSplitCharAux (sep : Char) : List Char → List Char → List String
  | [], acc => [String.mk acc.reverse]
  | c :: cs, acc =>
    if c = sep then String.mk acc.reverse :: jsSplitCharAux sep cs []
    else jsSplitCharAux sep cs (c :: acc)

/-- jsSplitChar models String.prototype.split with a one-character
separator. -/
def jsSplitChar (sep : Char) (s : String) : List String :=
  jsSplitCharAux sep s.data []

/-- parseSigElements models
signature.split(',').reduce(...) with element.split('='): each element
becomes a key and an optional value (missing when the element has no '='). -/
def parseSigElements (hdr : String) : List (String × Option String) :=
  (jsSplitChar ',' hdr).map (fun element =>
    let parts := jsSplitChar '=' element
    (parts.headD "", parts[1]?))

/-- sigElement looks a key up in the parsed header; a later duplicate key
overwrites an earlier one, as in the reduce accumulator. -/
def sigElement (hdr : String) (k : String) : Option String :=
  match (parseSigElements hdr).reverse.find? (fun p => p.1 == k) with
  | some p => p.2
  | none => none

/-- handleWebhook is the POST /payments/webhook handler: require a truthy
stripe-signature header, require a configured webhook secret, parse the
header's t and v1 components, recompute the HMAC-SHA256 of
timestamp-dot-body, compare exactly, then parse the body and dispatch.
parseEvent stands for JSON.parse (a parse failure throws and surfaces as
InternalError). -/
def handleWebhook (parseEvent : String → Option StripeEvent) (now : Nat)
    (secret : Option String) (sigHeader : Option String) (rawBody : String)
    (s : Store) : WebhookResult × Store :=
  match strOrNull sigHeader with
  | none => (.invalidRequest, s)
  | some signature =>
    match strOrNull secret with
    | none => (.internalError, s)
    | some webhookSecret =>
      match strOrNull (sigElement signature "t"),
            strOrNull (sigElement signature "v1") with
      | some timestamp, some sig =>
        if sig ≠ hmacSha256Hex webhookSecret (timestamp ++ "." ++ rawBody) then
          (.invalidRequest, s)
        else
          match parseEvent rawBody with
          | none => (.internalError, s)
          | some ev => webhookDispatch now ev s
      | _, _ => (.invalidRequest, s)

/-! ## State-machine lemmas and claims C2, C3 -/

/-- The boolean transition check as a proposition: same status, or membership
in the table row for the current status. -/
lemma isValidStatusTransition_iff (cur req : String) :
    isValidStatusTransition cur req = true ↔
      req = cur ∨ req ∈ (VALID_STATUS_TRANSITIONS cur).getD [] := by
  simp only [isValidStatusTransition, Bool.or_eq_true, beq_iff_eq, List.elem_iff]
  constructor
  · rintro (h | h)
    · exact Or.inl h.symm
    · exact Or.inr h
  · rintro (h | h)
    · exact Or.inl h.symm
    · exact Or.inr h

/-- applyOtherFields never touches launched_at. -/
lemma applyOtherFields_launched_at (p : ExperimentPatch) (e : Experiment) :
    (applyOtherFields p e).launched_at = e.launched_at := rfl

/-- applyOtherFields never touches decided_at. -/
lemma applyOtherFields_decided_at (p : ExperimentPatch) (e : Experiment) :
    (applyOtherFields p e).decided_at = e.decided_at := rfl

/-- applyOtherFields never touches status. -/
lemma applyOtherFields_status (p : ExperimentPatch) (e : Experiment) :
    (applyOtherFields p e).status = e.status := rfl

/-- A patch carrying only a status leaves applyOtherFields inert. -/
lemma applyOtherFields_statusOnly (req : String) (e : Experiment) :
    applyOtherFields { status := some req } e = e := rfl

/-- applyStatusChange writes the requested status. -/
lemma applyStatusChange_status (now : Nat) (cur : Experiment) (req : String) :
    (applyStatusChange now cur req).status = req := by
  unfold applyStatusChange
  split <;> split <;> rfl

/-- applyStatusChange never touches the slug. -/
lemma applyStatusChange_slug (now : Nat) (cur : Experiment) (req : String) :
    (applyStatusChange now cur req).slug = cur.slug := by
  unfold applyStatusChange
  split <;> split <;> rfl

/-- applyStatusChange never touches the archetype. -/
lemma applyStatusChange_archetype (now : Nat) (cur : Experiment) (req : String) :
    (applyStatusChange now cur req).archetype = cur.archetype := by
  unfold applyStatusChange
  split <;> split <;> rfl

/-- applyStatusChange never touches max_spend_cents. -/
lemma applyStatusChange_max_spend (now : Nat) (cur : Experiment) (req : String) :
    (applyStatusChange now cur req).max_spend_cents = cur.max_spend_cents := by
  unfold applyStatusChange
  split <;> split <;> rfl

/-- applyStatusChange never touches max_duration_days. -/
lemma applyStatusChange_max_duration (now : Nat) (cur : Experiment)
    (req : String) :
    (applyStatusChange now cur req).max_duration_days = cur.max_duration_days := by
  unfold applyStatusChange
  split <;> split <;> rfl

/-- applyStatusChange never touches price_cents. -/
lemma applyStatusChange_price (now : Nat) (cur : Experiment) (req : String) :
    (applyStatusChange now cur req).price_cents = cur.price_cents := by
  unfold applyStatusChange
  split <;> split <;> rfl

/-- The launched_at column after a status change: stamped with the current
time exactly when the requested status is launch and the stored value is
falsy (null or 0). -/
lemma applyStatusChange_launched_at (now : Nat) (cur : Experiment)
    (req : String) :
    (applyStatusChange now cur req).launched_at =
      if req == "launch" && jsFalsyTime cur.launched_at then some now
      else cur.launched_at := by
  unfold applyStatusChange
  by_cases hc : (req == "launch" && jsFalsyTime cur.launched_at) = true
  · simp only [hc, if_true]
    split <;> rfl
  · simp only [Bool.not_eq_true] at hc
    simp only [hc, Bool.false_eq_true, if_false]
    split <;> rfl

/-- The decided_at column after a status change: stamped with the current
time exactly when the requested status is decide and the stored value is
falsy (null or 0). -/
lemma applyStatusChange_decided_at (now : Nat) (cur : Experiment)
    (req : String) :
    (applyStatusChange now cur req).decided_at =
      if req == "decide" && jsFalsyTime cur.decided_at then some now
      else cur.decided_at := by
  unfold applyStatusChange
  by_cases hc : (req == "decide" && jsFalsyTime cur.decided_at) = true
  · simp only [hc, if_true]
  · simp only [Bool.not_eq_true] at hc
    simp only [hc, Bool.false_eq_true, if_false]
    split <;> rfl

/-- A requested status accepted by the transition check against a valid
current status is itself one of the seven statuses. -/
lemma validStatus_of_transition (cur req : String) (hv : ValidStatus cur)
    (h : req = cur ∨ req ∈ (VALID_STATUS_TRANSITIONS cur).getD []) :
    ValidStatus req := by
  rcases h with h | h
  · rw [h]
    exact hv
  · simp only [ValidStatus, List.mem_cons, List.not_mem_nil, or_false] at hv
    rcases hv with h' | h' | h' | h' | h' | h' | h' <;> rw [h'] at h <;>
      simp [VALID_STATUS_TRANSITIONS] at h <;>
      simp only [ValidStatus, List.mem_cons, List.not_mem_nil, or_false] <;>
      tauto

/-- A status change on a row satisfying the experiments-table CHECK
constraints keeps them satisfied when the requested status is valid. -/
lemma experimentChecksOk_applyStatusChange (now : Nat) (cur : Experiment)
    (req : String) (hreq : ValidStatus req)
    (hchecks : experimentChecksOk cur = true) :
    experimentChecksOk (applyStatusChange now cur req) = true := by
  unfold experimentChecksOk at hchecks ⊢
  rw [applyStatusChange_status, applyStatusChange_archetype,
    applyStatusChange_max_spend, applyStatusChange_max_duration,
    applyStatusChange_price]
  simp only [Bool.and_eq_true] at hchecks ⊢
  obtain ⟨⟨⟨⟨-, harch⟩, hm1⟩, hm2⟩, hm3⟩ := hchecks
  exact ⟨⟨⟨⟨List.elem_iff.mpr hreq, harch⟩, hm1⟩, hm2⟩, hm3⟩

/-- Evaluation of updateExperiment on a status-only patch when the experiment
exists, the transition is allowed and the updated row passes the CHECK and
slug UNIQUE constraints. -/
lemma updateExperiment_statusOnly (now : Nat) (exps : List Experiment)
    (id : String) (cur : Experiment) (req : String)
    (hfind : exps.find? (fun x => x.id == id) = some cur)
    (htrans : isValidStatusTransition cur.status req = true)
    (hrow : experimentChecksOk (applyStatusChange now cur req) = true)
    (hslug : slugUniqueOk exps id (applyStatusChange now cur req).slug = true) :
    updateExperiment now exps id { status := some req } =
      (UpdateResult.ok (applyStatusChange now cur req),
       exps.map (fun x => if x.id == id then applyStatusChange now cur req
         else x)) := by
  have hemp : applyOtherFields { status := some req }
      (applyStatusChange now cur req) = applyStatusChange now cur req := rfl
  simp only [updateExperiment, hfind, htrans, Bool.not_true,
    Bool.false_eq_true, if_false, hemp, hrow, hslug, Bool.and_self, if_true]

/-- C2: for every existing experiment whose stored row satisfies the schema
invariants (status CHECK via ValidStatus, the other experiments-table CHECK
constraints, unique slug), a PATCH requesting a status equal to the current
one or listed in the transition-table row succeeds with 200, and a PATCH
requesting any other status — whatever else the body carries — fails with
InvalidStatusTransition (HTTP 400) whose details carry current_status,
requested_status, and the full allowed-transitions list of the current
status, leaving the store untouched. -/
theorem claim_C2_state_machine_soundness
    (now : Nat) (exps : List Experiment) (e : Experiment)
    (body : ExperimentPatch) (req : String)
    (hfind : exps.find? (fun x => x.id == e.id) = some e)
    (hvalid : ValidStatus e.status)
    (hreq : body.status = some req) :
    ((req = e.status ∨ req ∈ (VALID_STATUS_TRANSITIONS e.status).getD []) →
      experimentChecksOk e = true → slugUniqueOk exps e.id e.slug = true →
      ∃ e', (updateExperiment now exps e.id { status := some req }).1 =
          UpdateResult.ok e' ∧
        (updateExperiment now exps e.id { status := some req }).1.statusCode =
          200) ∧
    (¬(req = e.status ∨ req ∈ (VALID_STATUS_TRANSITIONS e.status).getD []) →
      updateExperiment now exps e.id body =
        (UpdateResult.invalidStatusTransition
          ⟨e.status, req, VALID_STATUS_TRANSITIONS e.status⟩, exps) ∧
      (UpdateResult.invalidStatusTransition
        ⟨e.status, req, VALID_STATUS_TRANSITIONS e.status⟩).statusCode = 400 ∧
      ∃ allowed, VALID_STATUS_TRANSITIONS e.status = some allowed) := by
  constructor
  · intro hok hchecks hslug
    have hv : isValidStatusTransition e.status req = true :=
      (isValidStatusTransition_iff _ _).mpr hok
    have hreqvalid : ValidStatus req :=
      validStatus_of_transition e.status req hvalid hok
    have hrow := experimentChecksOk_applyStatusChange now e req hreqvalid hchecks
    have hsl : slugUniqueOk exps e.id (applyStatusChange now e req).slug =
        true := by
      rw [applyStatusChange_slug]
      exact hslug
    rw [updateExperiment_statusOnly now exps e.id e req hfind hv hrow hsl]
    exact ⟨_, rfl, rfl⟩
  · intro hbad
    have hv : isValidStatusTransition e.status req = false := by
      by_contra hc
      exact hbad ((isValidStatusTransition_iff _ _).mp (by simpa using hc))
    refine ⟨?_, rfl, ?_⟩
    · simp only [updateExperiment, hfind, hreq, hv, Bool.not_false, if_true]
    · have hvalid' := hvalid
      simp only [ValidStatus, List.mem_cons, List.not_mem_nil, or_false] at hvalid'
      rcases hvalid' with h | h | h | h | h | h | h <;>
        rw [h] <;> exact ⟨_, rfl⟩

/-- C2 witness: a draft experiment patched to run is rejected with the
structured 400 error carrying the full allowed list, and the same experiment
patched to preflight succeeds with 200. -/
theorem claim_C2_state_machine_soundness_witness :
    (updateExperiment 5
        [{ id := "SC-2026-001", name := "n", slug := "s", status := "draft",
           archetype := "waitlist" }] "SC-2026-001" { status := some "run" } =
      (UpdateResult.invalidStatusTransition
        ⟨"draft", "run", some ["preflight", "archive"]⟩,
       [{ id := "SC-2026-001", name := "n", slug := "s", status := "draft",
          archetype := "waitlist" }])) ∧
    (∃ e', (updateExperiment 5
        [{ id := "SC-2026-001", name := "n", slug := "s", status := "draft",
           archetype := "waitlist" }] "SC-2026-001"
        { status := some "preflight" }).1 = UpdateResult.ok e' ∧
      (updateExperiment 5
        [{ id := "SC-2026-001", name := "n", slug := "s", status := "draft",
           archetype := "waitlist" }] "SC-2026-001"
        { status := some "preflight" }).1.statusCode = 200) :=
  ⟨((claim_C2_state_machine_soundness 5
      [{ id := "SC-2026-001", name := "n", slug := "s", status := "draft",
         archetype := "waitlist" }]
      { id := "SC-2026-001", name := "n", slug := "s", status := "draft",
        archetype := "waitlist" }
      { status := some "run" } "run" (by decide) (by decide) rfl).2
    (by decide)).1,
   (claim_C2_state_machine_soundness 5
      [{ id := "SC-2026-001", name := "n", slug := "s", status := "draft",
         archetype := "waitlist" }]
      { id := "SC-2026-001", name := "n", slug := "s", status := "draft",
        archetype := "waitlist" }
      { status := some "preflight" } "preflight" (by decide) (by decide)
      rfl).1 (by decide) (by decide) (by decide)⟩

/-- C3 counterexample: the stamping guard is the JavaScript falsy test
`!launched_at`, so an experiment whose launched_at is already set to 0 has it
overwritten by a successful no-op launch-to-launch update, contradicting the
claim that a set launched_at is never modified. -/
theorem claim_C3_timestamp_counterexample :
    ((updateExperiment 7
        [{ id := "SC-2026-001", name := "n", slug := "s", status := "launch",
           archetype := "waitlist", launched_at := some 0 }] "SC-2026-001"
        { status := some "launch" }).1 =
      UpdateResult.ok
        { id := "SC-2026-001", name := "n", slug := "s", status := "launch",
          archetype := "waitlist", launched_at := some 7 }) ∧
    (some 7 : Option Nat) ≠ some 0 := by
  constructor
  · decide
  · decide

/-- C3 (amended): a status-only PATCH with an allowed transition against a
schema-valid stored row succeeds, and in the updated row launched_at is
stamped with the current time when the requested status is launch and
launched_at is unset or set to 0 (a stored 0 is falsy in JavaScript and is
re-stamped, see the counterexample); it is left unchanged when the requested
status is not launch, and whenever it is already set to a nonzero timestamp;
symmetrically for decide and decided_at. -/
theorem claim_C3_timestamp_stamping
    (now : Nat) (exps : List Experiment) (e : Experiment) (req : String)
    (hfind : exps.find? (fun x => x.id == e.id) = some e)
    (hvalid : ValidStatus e.status)
    (hchecks : experimentChecksOk e = true)
    (hslug : slugUniqueOk exps e.id e.slug = true)
    (htrans : isValidStatusTransition e.status req = true) :
    ∃ e', (updateExperiment now exps e.id { status := some req }).1 =
        UpdateResult.ok e' ∧
      (req = "launch" → (e.launched_at = none ∨ e.launched_at = some 0) →
        e'.launched_at = some now) ∧
      (req ≠ "launch" → e'.launched_at = e.launched_at) ∧
      (∀ t, e.launched_at = some t → t ≠ 0 → e'.launched_at = e.launched_at) ∧
      (req = "decide" → (e.decided_at = none ∨ e.decided_at = some 0) →
        e'.decided_at = some now) ∧
      (req ≠ "decide" → e'.decided_at = e.decided_at) ∧
      (∀ t, e.decided_at = some t → t ≠ 0 → e'.decided_at = e.decided_at) := by
  have hreqvalid : ValidStatus req :=
    validStatus_of_transition e.status req hvalid
      ((isValidStatusTransition_iff _ _).mp htrans)
  have hrow := experimentChecksOk_applyStatusChange now e req hreqvalid hchecks
  have hsl : slugUniqueOk exps e.id (applyStatusChange now e req).slug =
      true := by
    rw [applyStatusChange_slug]
    exact hslug
  rw [updateExperiment_statusOnly now exps e.id e req hfind htrans hrow hsl]
  refine ⟨applyStatusChange now e req, rfl, ?_, ?_, ?_, ?_, ?_, ?_⟩
  · intro h1 h2
    subst h1
    rw [applyStatusChange_launched_at]
    have hf : jsFalsyTime e.launched_at = true := by
      rcases h2 with h | h <;> simp [h, jsFalsyTime]
    simp [hf]
  · intro h1
    rw [applyStatusChange_launched_at]
    have hb : (req == "launch") = false := by simpa using h1
    simp [hb]
  · intro t ht hz
    rw [applyStatusChange_launched_at]
    have hf : jsFalsyTime e.launched_at = false := by
      simp [ht, jsFalsyTime, hz]
    simp [hf]
  · intro h1 h2
    subst h1
    rw [applyStatusChange_decided_at]
    have hf : jsFalsyTime e.decided_at = true := by
      rcases h2 with h | h <;> simp [h, jsFalsyTime]
    simp [hf]
  · intro h1
    rw [applyStatusChange_decided_at]
    have hb : (req == "decide") = false := by simpa using h1
    simp [hb]
  · intro t ht hz
    rw [applyStatusChange_decided_at]
    have hf : jsFalsyTime e.decided_at = false := by
      simp [ht, jsFalsyTime, hz]
    simp [hf]

/-- C3 witness: a build experiment patched to launch with launched_at unset
gets launched_at stamped to the current time, and one whose launched_at is 0
gets it re-stamped. -/
theorem claim_C3_timestamp_stamping_witness :
    (∃ e', (updateExperiment 99
        [{ id := "SC-2026-002", name := "n", slug := "s2", status := "build",
           archetype := "waitlist" }] "SC-2026-002"
        { status := some "launch" }).1 = UpdateResult.ok e' ∧
      e'.launched_at = some 99) ∧
    (∃ e', (updateExperiment 99
        [{ id := "SC-2026-003", name := "n", slug := "s3", status := "build",
           archetype := "waitlist", launched_at := some 0 }] "SC-2026-003"
        { status := some "launch" }).1 = UpdateResult.ok e' ∧
      e'.launched_at = some 99) := by
  constructor
  · obtain ⟨e', h1, h2, -, -, -, -, -⟩ :=
      claim_C3_timestamp_stamping 99
        [{ id := "SC-2026-002", name := "n", slug := "s2", status := "build",
           archetype := "waitlist" }]
        { id := "SC-2026-002", name := "n", slug := "s2", status := "build",
          archetype := "waitlist" }
        "launch" (by decide) (by decide) (by decide) (by decide) (by decide)
    exact ⟨e', h1, h2 rfl (Or.inl rfl)⟩
  · obtain ⟨e', h1, h2, -, -, -, -, -⟩ :=
      claim_C3_timestamp_stamping 99
        [{ id := "SC-2026-003", name := "n", slug := "s3", status := "build",
           archetype := "waitlist", launched_at := some 0 }]
        { id := "SC-2026-003", name := "n", slug := "s3", status := "build",
          archetype := "waitlist", launched_at := some 0 }
        "launch" (by decide) (by decide) (by decide) (by decide) (by decide)
    exact ⟨e', h1, h2 rfl (Or.inr rfl)⟩

/-! ## Lead intake claims C7 and C6 -/

/-- C7: with both required fields present, a submission whose honeypot field
is non-blank against an experiment in launch/run returns a 201 success
carrying the supplied fake lead id and the experiment's real slug and leaves
the store untouched; and the experiment gate precedes the honeypot check, so
a submission against an unknown or non-accepting experiment fails with
ExperimentNotFound (404) and leaves the store untouched, honeypot or not. -/
theorem claim_C7_honeypot_stealth
    (now fakeId : Nat) (ctx : RequestContext) (input : LeadInput) (s : Store)
    (hexp : input.experiment_id ≠ "") (hemail : input.email ≠ "") :
    (∀ exp, s.experiments.find? (fun e => e.id == input.experiment_id &&
        (e.status == "launch" || e.status == "run")) = some exp →
      honeypotTriggered input.hp_field = true →
      submitLead now fakeId ctx input s =
        (LeadResult.created fakeId input.experiment_id exp.slug, s) ∧
      (LeadResult.created fakeId input.experiment_id exp.slug).statusCode = 201) ∧
    (s.experiments.find? (fun e => e.id == input.experiment_id &&
        (e.status == "launch" || e.status == "run")) = none →
      submitLead now fakeId ctx input s = (LeadResult.experimentNotFound, s) ∧
      LeadResult.experimentNotFound.statusCode = 404) := by
  constructor
  · intro exp hfind htrig
    refine ⟨?_, rfl⟩
    simp only [submitLead, hexp, hemail, hfind, htrig, if_true, if_false]
    simp [hexp, hemail]
  · intro hfind
    refine ⟨?_, rfl⟩
    simp only [submitLead, hfind]
    simp [hexp, hemail]

/-- C7 witness: a honeypot submission against a launch experiment returns the
fake id and real slug without touching the store, and the same input against
an empty store is a 404. -/
theorem claim_C7_honeypot_stealth_witness :
    (submitLead 10 424242 {} { experiment_id := "SC-2026-001", email := "bot@example.com", hp_field := some "gotcha" } { experiments := [{ id := "SC-2026-001", name := "n", slug := "real-slug", status := "launch", archetype := "waitlist" }] } =
      (LeadResult.created 424242 "SC-2026-001" "real-slug", { experiments := [{ id := "SC-2026-001", name := "n", slug := "real-slug", status := "launch", archetype := "waitlist" }] })) ∧
    (submitLead 10 424242 {} { experiment_id := "SC-2026-001", email := "bot@example.com", hp_field := some "gotcha" } {} =
      (LeadResult.experimentNotFound, {})) := by
  constructor
  · exact ((claim_C7_honeypot_stealth 10 424242 {} { experiment_id := "SC-2026-001", email := "bot@example.com", hp_field := some "gotcha" } { experiments := [{ id := "SC-2026-001", name := "n", slug := "real-slug", status := "launch", archetype := "waitlist" }] } (by decide) (by decide)).1 { id := "SC-2026-001", name := "n", slug := "real-slug", status := "launch", archetype := "waitlist" } (by decide) (by decide)).1
  · exact ((claim_C7_honeypot_stealth 10 424242 {} { experiment_id := "SC-2026-001", email := "bot@example.com", hp_field := some "gotcha" } {} (by decide) (by decide)).2 (by decide)).1

/-! ## Public slug lookup claim C9 -/

/-- C9: a successful slug lookup comes from an experiment in launch/run with
that slug, and its response carries only the seven public fields plus
price_cents (present exactly when non-null) and stripe_price_id (present only
when non-null); no other stored column ever appears. -/
theorem claim_C9_public_slug_sanitization
    (exps : List Experiment) (slug : String) (resp : List (String × Json))
    (hresp : getExperimentBySlug exps slug = some resp) :
    ∃ e, e ∈ exps ∧ e.slug = slug ∧ (e.status = "launch" ∨ e.status = "run") ∧
      resp = sanitizedExperiment e ∧
      (∀ k, k ∈ resp.map Prod.fst →
        k ∈ ["id", "name", "slug", "status", "archetype", "copy_pack",
             "created_at", "price_cents", "stripe_price_id"]) ∧
      (("price_cents" ∈ resp.map Prod.fst) ↔ e.price_cents ≠ none) ∧
      (("stripe_price_id" ∈ resp.map Prod.fst) → e.stripe_price_id ≠ none) := by
  unfold getExperimentBySlug at hresp
  rcases hfind : exps.find? (fun e => e.slug == slug &&
      (e.status == "launch" || e.status == "run")) with _ | e
  · rw [hfind] at hresp
    exact absurd hresp (by simp)
  · rw [hfind] at hresp
    have hmem : e ∈ exps := List.mem_of_find?_eq_some hfind
    have hpred := List.find?_some hfind
    simp only [Bool.and_eq_true, Bool.or_eq_true, beq_iff_eq] at hpred
    have hrespe : resp = sanitizedExperiment e := by
      simpa using hresp.symm
    refine ⟨e, hmem, hpred.1, hpred.2, hrespe, ?_, ?_, ?_⟩ <;>
      rw [hrespe] <;>
      rcases hpc : e.price_cents with _ | pc <;>
      rcases hsp : e.stripe_price_id with _ | sp <;>
      simp only [sanitizedExperiment, hpc, hsp] <;>
      first
        | (intro k hk
           by_cases hsp0 : sp = "" <;>
             simp [hsp0] at hk ⊢ <;> rcases hk with h|h|h|h|h|h|h|h|h <;> simp [h])
        | (intro k hk
           simp at hk ⊢ <;> rcases hk with h|h|h|h|h|h|h|h <;> simp [h])
        | (by_cases hsp0 : sp = "" <;> simp [hsp0])
        | simp

/-- c9Exp is a priced experiment in run status, used by the C9 witness. -/
def c9Exp : Experiment :=
  { id := "SC-2026-005", name := "n", slug := "pw", status := "run",
    archetype := "priced_waitlist", price_cents := some 4900,
    stripe_price_id := some "price_123" }

/-- C9 witness: the slug lookup of a priced run experiment returns its
sanitized projection, whose keys stay within the public allow-list. -/
theorem claim_C9_public_slug_sanitization_witness :
    ∃ e, e ∈ [c9Exp] ∧ e.slug = "pw" ∧ (e.status = "launch" ∨ e.status = "run") ∧
      sanitizedExperiment c9Exp = sanitizedExperiment e ∧
      (∀ k, k ∈ (sanitizedExperiment c9Exp).map Prod.fst →
        k ∈ ["id", "name", "slug", "status", "archetype", "copy_pack",
             "created_at", "price_cents", "stripe_price_id"]) ∧
      (("price_cents" ∈ (sanitizedExperiment c9Exp).map Prod.fst) ↔
        e.price_cents ≠ none) ∧
      (("stripe_price_id" ∈ (sanitizedExperiment c9Exp).map Prod.fst) →
        e.stripe_price_id ≠ none) :=
  claim_C9_public_slug_sanitization [c9Exp] "pw" (sanitizedExperiment c9Exp) rfl

/-! ## Webhook signature claim C8 -/

/-- C8: a missing (or falsy) stripe-signature header, a header whose t or v1
component is missing, or a v1 component differing by exact string comparison
from the HMAC-SHA256 of timestamp-dot-body under the configured secret, all
fail with InvalidRequest (400) and leave the store untouched, for every body,
parser and event — so before any event-type dispatch; an unconfigured secret
instead fails with InternalError (500) once the header is present. -/
theorem claim_C8_webhook_signature_rejection
    (parseEvent : String → Option StripeEvent) (now : Nat)
    (secret : Option String) (sigHeader : Option String) (rawBody : String)
    (s : Store) :
    (strOrNull sigHeader = none →
      handleWebhook parseEvent now secret sigHeader rawBody s =
        (WebhookResult.invalidRequest, s)) ∧
    (∀ hdr, strOrNull sigHeader = some hdr → strOrNull secret = none →
      handleWebhook parseEvent now secret sigHeader rawBody s =
        (WebhookResult.internalError, s)) ∧
    (∀ hdr sec, strOrNull sigHeader = some hdr → strOrNull secret = some sec →
      (strOrNull (sigElement hdr "t") = none ∨
       strOrNull (sigElement hdr "v1") = none) →
      handleWebhook parseEvent now secret sigHeader rawBody s =
        (WebhookResult.invalidRequest, s)) ∧
    (∀ hdr sec ts sg, strOrNull sigHeader = some hdr →
      strOrNull secret = some sec →
      strOrNull (sigElement hdr "t") = some ts →
      strOrNull (sigElement hdr "v1") = some sg →
      sg ≠ hmacSha256Hex sec (ts ++ "." ++ rawBody) →
      handleWebhook parseEvent now secret sigHeader rawBody s =
        (WebhookResult.invalidRequest, s)) ∧
    WebhookResult.invalidRequest.statusCode = 400 ∧
    WebhookResult.internalError.statusCode = 500 := by
  refine ⟨?_, ?_, ?_, ?_, rfl, rfl⟩
  · intro h
    simp only [handleWebhook, h]
  · intro hdr hh hs
    simp only [handleWebhook, hh, hs]
  · intro hdr sec hh hs hmiss
    rcases hmiss with hm | hm
    · simp only [handleWebhook, hh, hs, hm]
    · simp only [handleWebhook, hh, hs, hm]
      rcases strOrNull (sigElement hdr "t") with _ | t <;> rfl
  · intro hdr sec ts sg hh hs ht hv hne
    simp only [handleWebhook, hh, hs, ht, hv, if_pos hne]

/-- C8 witness: a header with no v1 component is rejected with 400 and an
untouched store, and an unconfigured secret yields 500. -/
theorem claim_C8_webhook_signature_rejection_witness :
    (handleWebhook (fun _ => none) 0 (some "whsec_test") (some "t=12345")
        "\x7b\x7d" {} = (WebhookResult.invalidRequest, {})) ∧
    (handleWebhook (fun _ => none) 0 none (some "t=12345,v1=abc")
        "\x7b\x7d" {} = (WebhookResult.internalError, {})) := by
  constructor
  · exact (claim_C8_webhook_signature_rejection (fun _ => none) 0
      (some "whsec_test") (some "t=12345") "\x7b\x7d" {}).2.2.1 "t=12345"
      "whsec_test" (by decide) (by decide) (Or.inr (by decide))
  · exact (claim_C8_webhook_signature_rejection (fun _ => none) 0 none
      (some "t=12345,v1=abc") "\x7b\x7d" {}).2.1 "t=12345,v1=abc"
      (by decide) (by decide)

/-! ## Event deduplication claim C4 -/

/-- C4: with a non-empty event_type, a submission whose hash matches an event
row created within the last five minutes returns that row's id with
deduplicated true and leaves the store untouched; otherwise exactly one new
row (with the computed hash, normalized fields and the current time) is
inserted and its fresh id is returned with deduplicated false. -/
theorem claim_C4_event_idempotence
    (now : Nat) (ctx : RequestContext) (input : EventInput) (s : Store)
    (htype : input.event_type ≠ "") :
    ((∃ r ∈ s.events, r.event_hash = some (computeEventHash input.experiment_id
        input.event_type input.session_id input.event_data) ∧
        inDedupWindow now r.created_at = true) →
      ∃ r ∈ s.events, r.event_hash = some (computeEventHash input.experiment_id
        input.event_type input.session_id input.event_data) ∧
        inDedupWindow now r.created_at = true ∧
        submitEvent now ctx input s = (EventResult.ok r.id true, s)) ∧
    ((¬∃ r ∈ s.events, r.event_hash = some (computeEventHash input.experiment_id
        input.event_type input.session_id input.event_data) ∧
        inDedupWindow now r.created_at = true) →
      submitEvent now ctx input s =
        (EventResult.ok s.nextEventId false,
         { s with
           events := s.events ++
             [{ id := s.nextEventId,
                experiment_id := strOrNull input.experiment_id,
                event_type := input.event_type,
                event_data := (dataOrNull input.event_data).map Json.stringify,
                event_hash := some (computeEventHash input.experiment_id
                  input.event_type input.session_id input.event_data),
                session_id := strOrNull input.session_id,
                visitor_id := strOrNull input.visitor_id,
                referrer := ctx.referrer, user_agent := ctx.user_agent,
                ip_country := ctx.ip_country, created_at := now }],
           nextEventId := s.nextEventId + 1 })) := by
  constructor
  · intro hexists
    have hsome : (s.events.find? (fun r => r.event_hash ==
        some (computeEventHash input.experiment_id input.event_type
          input.session_id input.event_data) &&
        inDedupWindow now r.created_at)).isSome := by
      rw [List.find?_isSome]
      obtain ⟨r, hrmem, hrh, hrw⟩ := hexists
      exact ⟨r, hrmem, by simp [hrh, hrw]⟩
    obtain ⟨r0, hr0⟩ := Option.isSome_iff_exists.mp hsome
    have hmem := List.mem_of_find?_eq_some hr0
    have hpred := List.find?_some hr0
    simp only [Bool.and_eq_true, beq_iff_eq] at hpred
    refine ⟨r0, hmem, hpred.1, hpred.2, ?_⟩
    simp only [submitEvent, if_neg htype, hr0]
  · intro hnone
    have hfind : s.events.find? (fun r => r.event_hash ==
        some (computeEventHash input.experiment_id input.event_type
          input.session_id input.event_data) &&
        inDedupWindow now r.created_at) = none := by
      rw [List.find?_eq_none]
      intro r hrmem
      simp only [Bool.and_eq_true, beq_iff_eq, not_and]
      intro hrh hrw
      exact hnone ⟨r, hrmem, hrh, hrw⟩
    simp only [submitEvent, if_neg htype, hfind]

/-- c4Row is a stored page_view event used by the C4 witness. -/
def c4Row : EventRow :=
  { id := 7, event_type := "page_view",
    event_hash := some (computeEventHash none "page_view" none none),
    created_at := 1000 }

/-- c4Store is a store holding c4Row, used by the C4 witness. -/
def c4Store : Store :=
  { events := [c4Row], nextEventId := 8 }

/-- C4 witness: a second identical submission 60 seconds after a stored event
with the same hash returns the stored id 7 with deduplicated true. -/
theorem claim_C4_event_idempotence_witness :
    ∃ r ∈ c4Store.events,
      r.event_hash = some (computeEventHash none "page_view" none none) ∧
      inDedupWindow 61000 r.created_at = true ∧
      submitEvent 61000 {} { event_type := "page_view" } c4Store =
        (EventResult.ok r.id true, c4Store) :=
  (claim_C4_event_idempotence 61000 {} { event_type := "page_view" } c4Store
    (by decide)).1 ⟨c4Row, by simp [c4Store], rfl, by decide⟩

/-! ## Lead uniqueness claim C6 -/

/-- LeadsUnique is the UNIQUE(experiment_id, email) invariant of the leads
table: no two rows share both keys. -/
def LeadsUnique (ls : List Lead) : Prop :=
  ls.Pairwise (fun a b => ¬(a.experiment_id = b.experiment_id ∧ a.email = b.email))

/-- C6: submitLead preserves the at-most-one-lead-per-(experiment, email)
invariant; a submission whose normalized email collides with a stored lead of
the experiment fails with DuplicateLead (409) and leaves the store untouched;
and a successful insert stores exactly one new lead whose email is the
normalized form of the input. -/
theorem claim_C6_lead_uniqueness
    (now fakeId : Nat) (ctx : RequestContext) (input : LeadInput) (s : Store) :
    (LeadsUnique s.leads → LeadsUnique (submitLead now fakeId ctx input s).2.leads) ∧
    (∀ exp, input.experiment_id ≠ "" → input.email ≠ "" →
      s.experiments.find? (fun e => e.id == input.experiment_id &&
        (e.status == "launch" || e.status == "run")) = some exp →
      honeypotTriggered input.hp_field = false →
      (∃ l ∈ s.leads, l.experiment_id = input.experiment_id ∧
        l.email = normalizeEmail input.email) →
      submitLead now fakeId ctx input s = (LeadResult.duplicateLead, s) ∧
      LeadResult.duplicateLead.statusCode = 409) ∧
    (∀ exp, input.experiment_id ≠ "" → input.email ≠ "" →
      s.experiments.find? (fun e => e.id == input.experiment_id &&
        (e.status == "launch" || e.status == "run")) = some exp →
      honeypotTriggered input.hp_field = false →
      (¬∃ l ∈ s.leads, l.experiment_id = input.experiment_id ∧
        l.email = normalizeEmail input.email) →
      submitLead now fakeId ctx input s =
        (LeadResult.created s.nextLeadId input.experiment_id exp.slug,
         { s with
           leads := s.leads ++
             [{ id := s.nextLeadId, experiment_id := input.experiment_id,
                email := normalizeEmail input.email,
                name := strOrNull input.name, company := strOrNull input.company,
                phone := strOrNull input.phone,
                custom_fields := (dataOrNull input.custom_fields).map Json.stringify,
                utm_source := strOrNull input.utm_source,
                utm_medium := strOrNull input.utm_medium,
                utm_campaign := strOrNull input.utm_campaign,
                utm_term := strOrNull input.utm_term,
                utm_content := strOrNull input.utm_content,
                referrer := ctx.referrer, ip_country := ctx.ip_country,
                user_agent := ctx.user_agent, created_at := now }],
           nextLeadId := s.nextLeadId + 1 })) := by
  have hdup_any : ∀ (hl : ∃ l ∈ s.leads, l.experiment_id = input.experiment_id ∧
      l.email = normalizeEmail input.email),
      s.leads.any (fun l => l.experiment_id == input.experiment_id &&
        l.email == normalizeEmail input.email) = true := by
    rintro ⟨l, hlm, h1, h2⟩
    exact List.any_eq_true.mpr ⟨l, hlm, by simp [h1, h2]⟩
  have hnodup_any : ∀ (hl : ¬∃ l ∈ s.leads, l.experiment_id = input.experiment_id ∧
      l.email = normalizeEmail input.email),
      s.leads.any (fun l => l.experiment_id == input.experiment_id &&
        l.email == normalizeEmail input.email) = false := by
    intro hl
    rw [List.any_eq_false]
    intro l hlm
    simp only [Bool.and_eq_true, beq_iff_eq, not_and]
    intro h1 h2
    exact hl ⟨l, hlm, h1, h2⟩
  refine ⟨?_, ?_, ?_⟩
  · intro huniq
    unfold submitLead
    split
    · exact huniq
    · split
      · exact huniq
      · split
        · exact huniq
        · split
          · exact huniq
          · rename_i exp hexp hhp hany
            simp only []
            refine List.pairwise_append.mpr ⟨huniq, List.pairwise_singleton _ _, ?_⟩
            intro a ha b hb
            simp only [List.mem_singleton] at hb
            subst hb
            rintro ⟨h1, h2⟩
            rw [Bool.not_eq_true] at hany
            have := List.any_eq_false.mp hany a ha
            simp only [Bool.and_eq_true, beq_iff_eq, not_and] at this
            exact this h1 h2
  · intro exp hexp hemail hfind hhp hdup
    refine ⟨?_, rfl⟩
    simp only [submitLead, hfind, hhp, Bool.false_eq_true, if_false,
      hdup_any hdup, if_true]
    simp [hexp, hemail]
  · intro exp hexp hemail hfind hhp hnodup
    simp only [submitLead, hfind, hhp, Bool.false_eq_true, if_false,
      hnodup_any hnodup, if_true]
    simp [hexp, hemail]

/-- c6Store is a launch experiment with one stored lead, used by the C6
witness. -/
def c6Store : Store :=
  { experiments := [{ id := "SC-2026-001", name := "n", slug := "s", status := "launch", archetype := "waitlist" }],
    leads := [{ id := 1, experiment_id := "SC-2026-001", email := "test@example.com", created_at := 5 }],
    nextLeadId := 2 }

/-- C6 witness: resubmitting the same email in different case with trailing
whitespace is rejected with DuplicateLead and the store is unchanged. -/
theorem claim_C6_lead_uniqueness_witness :
    submitLead 9 1 {}
      { experiment_id := "SC-2026-001", email := "Test@Example.COM  " }
      c6Store = (LeadResult.duplicateLead, c6Store) :=
  ((claim_C6_lead_uniqueness 9 1 {}
      { experiment_id := "SC-2026-001", email := "Test@Example.COM  " }
      c6Store).2.1
    { id := "SC-2026-001", name := "n", slug := "s", status := "launch",
      archetype := "waitlist" }
    (by decide) (by decide) (by decide) (by decide)
    ⟨{ id := 1, experiment_id := "SC-2026-001", email := "test@example.com",
       created_at := 5 }, by simp [c6Store], rfl, by decide⟩).1

/-! ## Payment idempotence claim C1 -/

/-- paymentCount counts the payment rows recorded for one Stripe payment
intent id. -/
def paymentCount (s : Store) (pid : String) : Nat :=
  s.payments.countP (fun p => p.stripe_payment_intent_id == pid)

/-- succStep is the store transformation of one payment_intent.succeeded
delivery. -/
def succStep (now : Nat) (s : Store) (o : StripeObject) : Store :=
  (handleSucceeded now o s).2

/-- A foldl over a list of steps that all fix the accumulator fixes it. -/
lemma foldl_fixed {α β : Type} (f : α → β → α) (a : α) (l : List β)
    (h : ∀ x ∈ l, f a x = a) : l.foldl f a = a := by
  induction l with
  | nil => rfl
  | cons x xs ih =>
    rw [List.foldl_cons, h x (List.mem_cons_self x xs)]
    exact ih (fun y hy => h y (List.mem_cons_of_mem x hy))

/-- A succeeded delivery whose intent already has a payment row returns
received and leaves the store untouched. -/
lemma handleSucceeded_existing (now : Nat) (o : StripeObject) (s : Store)
    (h : 0 < paymentCount s o.id) : handleSucceeded now o s = (.received, s) := by
  have hsome : (s.payments.find?
      (fun p => p.stripe_payment_intent_id == o.id)).isSome := by
    rw [List.find?_isSome]
    exact List.countP_pos_iff.mp h
  unfold handleSucceeded
  rw [if_pos hsome]

/-- A succeeded delivery for a fresh intent that resolves an experiment id
and carries a positive amount and a currency returns received and appends
exactly one payment row for the intent. -/
lemma handleSucceeded_fresh (now : Nat) (o : StripeObject) (s : Store)
    (eid : String) (amt : Int) (cur : String)
    (h0 : paymentCount s o.id = 0)
    (heid : strOrNull (resolveLeadExperiment o s).2 = some eid)
    (hamt : o.amount = some amt) (hcur : o.currency = some cur)
    (hpos : 0 < amt) :
    (handleSucceeded now o s).1 = WebhookResult.received ∧
    (handleSucceeded now o s).2.payments = s.payments ++
      [{ id := s.nextPaymentId, experiment_id := eid,
         lead_id := if natTruthy (resolveLeadExperiment o s).1 then
           (resolveLeadExperiment o s).1 else none,
         stripe_payment_intent_id := o.id,
         stripe_customer_id := strOrNull o.customer,
         stripe_charge_id := strOrNull o.latest_charge,
         amount_cents := amt, currency := cur, status := "succeeded",
         receipt_url := strOrNull o.receipt_url, created_at := now }] := by
  have hfind : s.payments.find?
      (fun p => p.stripe_payment_intent_id == o.id) = none := by
    rw [List.find?_eq_none]
    exact List.countP_eq_zero.mp h0
  constructor
  · simp only [handleSucceeded, hfind, Option.isSome_none, Bool.false_eq_true,
      if_false, heid, hamt, hcur, if_pos hpos]
  · simp only [handleSucceeded, hfind, Option.isSome_none, Bool.false_eq_true,
      if_false, heid, hamt, hcur, if_pos hpos]
    split <;> rfl

/-- C1 (amended): a sequence of payment_intent.succeeded deliveries for the
same intent id, starting from a store satisfying the uniqueness invariant,
leaves exactly one payment row for that intent after the first delivery —
provided the first delivery resolves an experiment id (via metadata or the
lead-email fallback) and carries a positive amount and a currency, since the
payments insert otherwise violates the seed.sql NOT NULL/CHECK constraints
and the call fails with InternalError instead (see the counterexample).  All
later deliveries leave the whole store (payments and leads) unchanged, every
delivery for an already-recorded intent acknowledges with received, and
received is an HTTP 200. -/
theorem claim_C1_payment_idempotence
    (now : Nat) (s : Store) (pid : String) (o : StripeObject)
    (os : List StripeObject)
    (hpid : o.id = pid) (hos : ∀ q ∈ os, q.id = pid)
    (hinv : paymentCount s pid ≤ 1)
    (hres : paymentCount s pid = 0 →
      (∃ eid, strOrNull (resolveLeadExperiment o s).2 = some eid) ∧
      (∃ amt, o.amount = some amt ∧ 0 < amt) ∧
      (∃ cur, o.currency = some cur)) :
    paymentCount (succStep now s o) pid = 1 ∧
    List.foldl (succStep now) (succStep now s o) os = succStep now s o ∧
    (handleSucceeded now o s).1 = WebhookResult.received ∧
    WebhookResult.received.statusCode = 200 ∧
    (∀ t q, q.id = pid → 0 < paymentCount t pid →
      handleSucceeded now q t = (WebhookResult.received, t)) := by
  have hdup : ∀ (t : Store) (q : StripeObject), q.id = pid →
      0 < paymentCount t pid → handleSucceeded now q t = (.received, t) := by
    intro t q hq hpos
    exact handleSucceeded_existing now q t (by rwa [hq])
  have hcount1 : paymentCount (succStep now s o) pid = 1 := by
    rcases Nat.eq_zero_or_pos (paymentCount s pid) with hz | hp
    · obtain ⟨⟨eid, heid⟩, ⟨amt, hamt, hamtpos⟩, ⟨cur, hcur⟩⟩ := hres hz
      have hfresh := handleSucceeded_fresh now o s eid amt cur
        (by rwa [hpid]) heid hamt hcur hamtpos
      unfold succStep paymentCount
      rw [hfresh.2, List.countP_append]
      have : paymentCount s pid = s.payments.countP
          (fun p => p.stripe_payment_intent_id == pid) := rfl
      rw [← this, hz]  -- hmm countP over s.payments with pid
      simp [hpid]
    · have h1 : paymentCount s pid = 1 := Nat.le_antisymm hinv hp
      unfold succStep
      rw [hdup s o hpid hp]
      exact h1
  refine ⟨hcount1, ?_, ?_, rfl, hdup⟩
  · apply foldl_fixed
    intro q hq
    have hstep := hdup (succStep now s o) q (hos q hq)
      (by rw [hcount1]; exact Nat.one_pos)
    show (handleSucceeded now q (succStep now s o)).2 = succStep now s o
    rw [hstep]
  · rcases Nat.eq_zero_or_pos (paymentCount s pid) with hz | hp
    · obtain ⟨⟨eid, heid⟩, ⟨amt, hamt, hamtpos⟩, ⟨cur, hcur⟩⟩ := hres hz
      exact (handleSucceeded_fresh now o s eid amt cur (by rwa [hpid]) heid
        hamt hcur hamtpos).1
    · rw [hdup s o hpid hp]

/-- c1Event is a payment_intent.succeeded event whose intent carries a
positive amount and a currency but no metadata and no receipt email, so no
experiment id resolves; used by the C1 counterexample. -/
def c1Event : StripeEvent :=
  { type := "payment_intent.succeeded",
    object := { id := "pi_1", amount := some 500, currency := some "usd" } }

set_option maxRecDepth 1000000 in
/-- C1 counterexample: a webhook delivery carrying a valid signature (v1 is
the genuine HMAC of timestamp-dot-body under the configured secret) for a
succeeded intent that resolves no experiment id binds NULL into the NOT NULL
payments.experiment_id column: the call fails with InternalError (500), not
received true, and no payment row is ever written, refuting the claim for
such sequences. -/
theorem claim_C1_payment_idempotence_counterexample :
    handleWebhook (fun _ => some c1Event) 77 (some "whsec_test")
      (some "t=1000,v1=99ae96a16b2198a33a392382100cde93b2724d3046a6c20aa79954beead025f9")
      "evt" {} = (WebhookResult.internalError, {}) ∧
    WebhookResult.internalError ≠ WebhookResult.received ∧
    ({} : Store).payments = [] := by
  refine ⟨?_, by decide, rfl⟩
  decide

/-- c1Obj is a succeeded intent with explicit metadata.experiment_id, used by
the C1 witness. -/
def c1Obj : StripeObject :=
  { id := "pi_1", amount := some 500, currency := some "usd",
    metadata_experiment_id := some "SC-2026-001" }

/-- C1 witness: a first delivery of c1Obj into an empty store records exactly
one payment row for pi_1, and a replay leaves the store unchanged. -/
theorem claim_C1_payment_idempotence_witness :
    paymentCount (succStep 50 {} c1Obj) "pi_1" = 1 ∧
    List.foldl (succStep 50) (succStep 50 {} c1Obj) [c1Obj] =
      succStep 50 {} c1Obj ∧
    (handleSucceeded 50 c1Obj {}).1 = WebhookResult.received :=
  ⟨(claim_C1_payment_idempotence 50 {} "pi_1" c1Obj [c1Obj] rfl
      (by intro q hq; simp at hq; subst hq; rfl) (by decide)
      (fun _ => ⟨⟨"SC-2026-001", by decide⟩, ⟨500, rfl, by decide⟩,
        ⟨"usd", rfl⟩⟩)).1,
   (claim_C1_payment_idempotence 50 {} "pi_1" c1Obj [c1Obj] rfl
      (by intro q hq; simp at hq; subst hq; rfl) (by decide)
      (fun _ => ⟨⟨"SC-2026-001", by decide⟩, ⟨500, rfl, by decide⟩,
        ⟨"usd", rfl⟩⟩)).2.1,
   (claim_C1_payment_idempotence 50 {} "pi_1" c1Obj [c1Obj] rfl
      (by intro q hq; simp at hq; subst hq; rfl) (by decide)
      (fun _ => ⟨⟨"SC-2026-001", by decide⟩, ⟨500, rfl, by decide⟩,
        ⟨"usd", rfl⟩⟩)).2.2.1⟩

/-! ## Hash determinism claim C5 -/

/-- charsLe on cons cells: strictly smaller head, or equal heads and
comparable tails. -/
lemma charsLe_cons_iff (a b : Char) (as bs : List Char) :
    charsLe (a :: as) (b :: bs) = true ↔
      a.toNat < b.toNat ∨ (a.toNat = b.toNat ∧ charsLe as bs = true) := by
  simp only [charsLe]
  split_ifs with h1 h2
  · exact iff_of_true rfl (Or.inl h1)
  · apply iff_of_false (by simp)
    rintro (h | ⟨h, _⟩) <;> omega
  · constructor
    · intro h
      exact Or.inr ⟨by omega, h⟩
    · rintro (h | ⟨_, h⟩)
      · omega
      · exact h

/-- charsLe is total. -/
lemma charsLe_total : ∀ as bs, charsLe as bs = true ∨ charsLe bs as = true := by
  intro as
  induction as with
  | nil => intro bs; left; rfl
  | cons a as ih =>
    intro bs
    cases bs with
    | nil => right; rfl
    | cons b bs =>
      rcases Nat.lt_trichotomy a.toNat b.toNat with h | h | h
      · left; rw [charsLe_cons_iff]; exact Or.inl h
      · rcases ih bs with h2 | h2
        · left; rw [charsLe_cons_iff]; exact Or.inr ⟨h, h2⟩
        · right; rw [charsLe_cons_iff]; exact Or.inr ⟨h.symm, h2⟩
      · right; rw [charsLe_cons_iff]; exact Or.inl h

/-- charsLe is transitive. -/
lemma charsLe_trans : ∀ as bs cs, charsLe as bs = true → charsLe bs cs = true →
    charsLe as cs = true := by
  intro as
  induction as with
  | nil => intro bs cs _ _; rfl
  | cons a as ih =>
    intro bs cs hab hbc
    cases bs with
    | nil => exact absurd hab (by simp [charsLe])
    | cons b bs =>
      cases cs with
      | nil => exact absurd hbc (by simp [charsLe])
      | cons c cs =>
        rw [charsLe_cons_iff] at hab hbc ⊢
        rcases hab with h1 | ⟨h1, h1'⟩ <;> rcases hbc with h2 | ⟨h2, h2'⟩
        · exact Or.inl (by omega)
        · exact Or.inl (by omega)
        · exact Or.inl (by omega)
        · exact Or.inr ⟨by omega, ih bs cs h1' h2'⟩

/-- charsLe is antisymmetric. -/
lemma charsLe_antisymm : ∀ as bs, charsLe as bs = true → charsLe bs as = true →
    as = bs := by
  intro as
  induction as with
  | nil =>
    intro bs h1 h2
    cases bs with
    | nil => rfl
    | cons b bs => exact absurd h2 (by simp [charsLe])
  | cons a as ih =>
    intro bs h1 h2
    cases bs with
    | nil => exact absurd h1 (by simp [charsLe])
    | cons b bs =>
      rw [charsLe_cons_iff] at h1 h2
      have hab : a.toNat = b.toNat := by
        rcases h1 with h | ⟨h, _⟩ <;> rcases h2 with h' | ⟨h', _⟩ <;> omega
      have hchar : a = b := Char.ext (UInt32.ext hab)
      subst hchar
      rcases h1 with h | ⟨_, h1'⟩
      · omega
      · rcases h2 with h' | ⟨_, h2'⟩
        · omega
        · rw [ih bs h1' h2']

instance : IsTotal String strLe := ⟨fun a b => charsLe_total a.data b.data⟩

instance : IsTrans String strLe :=
  ⟨fun a b c => charsLe_trans a.data b.data c.data⟩

instance : IsAntisymm String strLe :=
  ⟨fun a b h1 h2 => by
    cases a with
    | mk da =>
      cases b with
      | mk db => exact congrArg String.mk (charsLe_antisymm da db h1 h2)⟩

/-- Permuted key lists produce the same sorted key list. -/
lemma insertionSort_strLe_eq_of_perm (l1 l2 : List String) (h : l1.Perm l2) :
    List.insertionSort strLe l1 = List.insertionSort strLe l2 :=
  List.eq_of_perm_of_sorted
    ((List.perm_insertionSort strLe l1).trans
      (h.trans (List.perm_insertionSort strLe l2).symm))
    (List.sorted_insertionSort strLe l1)
    (List.sorted_insertionSort strLe l2)

/-- find? by key agrees on permuted entry lists with distinct keys. -/
lemma find?_key_eq_of_perm (kvs kvs2 : List (String × Json))
    (h : kvs.Perm kvs2) (nd : (kvs.map Prod.fst).Nodup) (k : String) :
    kvs.find? (fun p => p.1 == k) = kvs2.find? (fun p => p.1 == k) := by
  rcases hf : kvs.find? (fun p => p.1 == k) with _ | p
  · rw [hf]
    symm
    rw [List.find?_eq_none] at hf ⊢
    intro x hx
    exact hf x (h.symm.subset hx)
  · have hpmem : p ∈ kvs := List.mem_of_find?_eq_some hf
    have hppred := List.find?_some hf
    have hsome2 : (kvs2.find? (fun p => p.1 == k)).isSome := by
      rw [List.find?_isSome]
      exact ⟨p, h.subset hpmem, hppred⟩
    obtain ⟨q, hq⟩ := Option.isSome_iff_exists.mp hsome2
    have hqmem : q ∈ kvs := h.symm.subset (List.mem_of_find?_eq_some hq)
    have hqpred := List.find?_some hq
    rw [hf, hq]
    rw [beq_iff_eq] at hppred hqpred
    exact congrArg some
      (List.inj_on_of_nodup_map nd hpmem hqmem (hppred.trans hqpred.symm))

/-- lookupJson agrees on permuted entry lists with distinct keys. -/
lemma lookupJson_eq_of_perm (kvs kvs2 : List (String × Json))
    (h : kvs.Perm kvs2) (nd : (kvs.map Prod.fst).Nodup) (k : String) :
    lookupJson k kvs = lookupJson k kvs2 := by
  unfold lookupJson
  rw [find?_key_eq_of_perm kvs kvs2 h nd k]

/-- sortEntries is invariant under permutation of distinct-keyed entries. -/
lemma sortEntries_eq_of_perm (kvs kvs2 : List (String × Json))
    (h : kvs.Perm kvs2) (nd : (kvs.map Prod.fst).Nodup) :
    sortEntries kvs = sortEntries kvs2 := by
  unfold sortEntries
  rw [insertionSort_strLe_eq_of_perm _ _ (h.map Prod.fst)]
  apply List.map_congr_left
  intro k _
  rw [lookupJson_eq_of_perm kvs kvs2 h nd k]

/-- The hex digit of a value below 16 is a lowercase hex character. -/
lemma hexDigitChar_mem (n : Nat) (h : n < 16) :
    hexDigitChar n ∈ ("0123456789abcdef").data := by
  have hall : ∀ m, m < 16 → hexDigitChar m ∈ ("0123456789abcdef").data := by decide
  exact hall n h

/-- flatMapping byteToHex doubles the length. -/
lemma flatMap_byteToHex_length (bs : List Nat) :
    (bs.flatMap byteToHex).length = 2 * bs.length := by
  induction bs with
  | nil => rfl
  | cons b bs ih =>
    simp only [List.flatMap_cons, List.length_append, ih, byteToHex]
    simp
    omega

/-- A SHA-256 digest always has 32 bytes. -/
lemma sha256Bytes_length (msg : List Nat) : (sha256Bytes msg).length = 32 := by
  unfold sha256Bytes bytesBE
  simp

/-- C5: the event hash is invariant under permutation of the top-level keys
of an object event_data (JavaScript object keys are distinct), and every
event hash is a 256-bit digest rendered as 64 lowercase hex characters. -/
theorem claim_C5_hash_determinism :
    (∀ (eid : Option String) (etype : String) (sid : Option String)
       (kvs kvs2 : List (String × Json)), kvs.Perm kvs2 →
       (kvs.map Prod.fst).Nodup →
       computeEventHash eid etype sid (some (Json.obj kvs)) =
         computeEventHash eid etype sid (some (Json.obj kvs2))) ∧
    (∀ (eid : Option String) (etype : String) (sid : Option String)
       (ed : Option Json),
       (computeEventHash eid etype sid ed).length = 64 ∧
       ∀ c ∈ (computeEventHash eid etype sid ed).data,
         c ∈ ("0123456789abcdef").data) := by
  constructor
  · intro eid etype sid kvs kvs2 hperm hnd
    have hsort : sortEntries kvs = sortEntries kvs2 :=
      sortEntries_eq_of_perm kvs kvs2 hperm hnd
    have hcanon : canonicalEventJson eid etype sid (some (Json.obj kvs)) =
        canonicalEventJson eid etype sid (some (Json.obj kvs2)) := by
      show Json.stringify (Json.obj
          [("experiment_id", optStrJson (strOrNull eid)),
           ("event_type", Json.str etype),
           ("session_id", optStrJson (strOrNull sid)),
           ("event_data", Json.obj (sortEntries kvs))]) =
        Json.stringify (Json.obj
          [("experiment_id", optStrJson (strOrNull eid)),
           ("event_type", Json.str etype),
           ("session_id", optStrJson (strOrNull sid)),
           ("event_data", Json.obj (sortEntries kvs2))])
      rw [hsort]
    exact congrArg sha256hex hcanon
  · intro eid etype sid ed
    constructor
    · show ((sha256Bytes (strBytes
        (canonicalEventJson eid etype sid ed))).flatMap byteToHex).length = 64
      rw [flatMap_byteToHex_length, sha256Bytes_length]
    · intro c hc
      have hc' : c ∈ (sha256Bytes (strBytes
          (canonicalEventJson eid etype sid ed))).flatMap byteToHex := hc
      rw [List.mem_flatMap] at hc'
      obtain ⟨b, _, hcb⟩ := hc'
      simp only [byteToHex, List.mem_cons, List.not_mem_nil, or_false] at hcb
      rcases hcb with h | h <;> subst h <;> exact hexDigitChar_mem _ (by omega)

/-- C5 witness: swapping the two top-level keys of event_data leaves the
hash unchanged, and the hash of an event with no data has 64 characters. -/
theorem claim_C5_hash_determinism_witness :
    computeEventHash none "page_view" none
        (some (Json.obj [("b", Json.num 2), ("a", Json.num 1)])) =
      computeEventHash none "page_view" none
        (some (Json.obj [("a", Json.num 1), ("b", Json.num 2)])) ∧
    (computeEventHash none "page_view" none none).length = 64 :=
  ⟨claim_C5_hash_determinism.1 none "page_view" none _ _
    (List.Perm.swap ("a", Json.num 1) ("b", Json.num 2) []) (by decide),
   (claim_C5_hash_determinism.2 none "page_view" none none).1⟩

/-! ## Array canonicalization claim C10 -/

/-- c10Row is the event row stored for a page_view whose event_data is the
array [1, 2], submitted at time 1000. -/
def c10Row : EventRow :=
  { id := 1, experiment_id := none, event_type := "page_view",
    event_data := some (Json.stringify (Json.arr [Json.num 1, Json.num 2])),
    event_hash := some (computeEventHash none "page_view" none
      (some (Json.arr [Json.num 1, Json.num 2]))),
    session_id := none, visitor_id := none, referrer := none,
    user_agent := none, ip_country := none, created_at := 1000 }

/-- c10Store is the store after submitting that event into an empty store. -/
def c10Store : Store :=
  { events := [c10Row], nextEventId := 2 }

set_option maxRecDepth 1000000 in
/-- C10: the key-sorting step applies to every typeof-'object' value, arrays
included, replacing an array event_data by a plain object keyed by its
stringified indices: the distinct inputs [1,2] and the object with keys "0"
and "1" hash identically, so submitting one then the other within the
five-minute window deduplicates the second into the first event's id. -/
theorem claim_C10_array_canonicalization_collision :
    (Json.arr [Json.num 1, Json.num 2] ≠
      Json.obj [("0", Json.num 1), ("1", Json.num 2)]) ∧
    computeEventHash none "page_view" none
        (some (Json.arr [Json.num 1, Json.num 2])) =
      computeEventHash none "page_view" none
        (some (Json.obj [("0", Json.num 1), ("1", Json.num 2)])) ∧
    submitEvent 1000 {}
        { event_type := "page_view",
          event_data := some (Json.arr [Json.num 1, Json.num 2]) } {} =
      (EventResult.ok 1 false, c10Store) ∧
    submitEvent 61000 {}
        { event_type := "page_view",
          event_data := some (Json.obj [("0", Json.num 1), ("1", Json.num 2)]) }
        c10Store = (EventResult.ok 1 true, c10Store) := by
  have hcanon : canonicalEventJson none "page_view" none
      (some (Json.arr [Json.num 1, Json.num 2])) =
      canonicalEventJson none "page_view" none
        (some (Json.obj [("0", Json.num 1), ("1", Json.num 2)])) := by decide
  have hhash := congrArg sha256hex hcanon
  refine ⟨by simp, hhash, rfl, ?_⟩
  show submitEvent 61000 {}
      { event_type := "page_view",
        event_data := some (Json.obj [("0", Json.num 1), ("1", Json.num 2)]) }
      c10Store = (EventResult.ok 1 true, c10Store)
  simp only [submitEvent, if_neg (by decide : ¬("page_view" : String) = "")]
  rw [show computeEventHash none "page_view" none
      (some (Json.obj [("0", Json.num 1), ("1", Json.num 2)])) =
      computeEventHash none "page_view" none
        (some (Json.arr [Json.num 1, Json.num 2])) from hhash.symm]
  rw [show c10Store.events.find? (fun r => r.event_hash ==
      some (computeEventHash none "page_view" none
        (some (Json.arr [Json.num 1, Json.num 2]))) &&
      inDedupWindow 61000 r.created_at) = some c10Row by
    simp [c10Store, c10Row, List.find?, inDedupWindow]]
  rfl

end SCApi
